import Mathlib

/-!
Verification development for the ni-logo-manager plugin core.

The program is a design-tool plugin that assembles logo "component sets"
(four fixed-size variants) from captured source nodes, normalizes their
geometry, recolors them, and files the assembled set into an alphabetically
bucketed index inside a target frame.

The embedding below is a shallow model of the two plugin entry modules:
- the current revision in src/ui.tsx (handler, variant builder, geometry and
  recolor helpers, placement organizer), modeled in the root namespace, and
- the earlier revision in src/main.ts, modeled in namespace MainRev.

Modeling conventions:
- JavaScript numbers are idealized as exact rationals.
- The host document graph is a rose tree of nodes.  Duck-typed property
  checks (does this node have width, fills, children, clone, ...) are
  modeled by Option-valued fields and capability flags.  A node exposing
  width/height is assumed to expose resize as well, which is a host API
  guarantee (resize belongs to the same layout capability as width).
- Host-side state that the code only creates and never rereads
  (default paint of a fresh rectangle, text layout of a label) is given
  fixed default values; text measurement, which the code does reread, is
  passed in explicitly as an oracle where needed.
- Thrown exceptions are modeled with Except; the notifications the user
  sees are collected in result records.
- Nodes partially constructed inside a builder call that throws are not
  tracked individually; every theorem below only inspects executions where
  this distinction is invisible (a builder either completes or throws
  before creating anything whose state a theorem mentions).
-/

namespace NiLogo

/-- RGB color with channels in the 0..1 range, as produced by hexToRgb. -/
structure RGB where
  r : ℚ
  g : ℚ
  b : ℚ
  deriving DecidableEq, Repr

/-- One entry of the fill list of a node.  Solid paints carry the fields the code
reads or writes (color, optional opacity, optional visibility); gradient and
image paints are opaque payloads the code never rewrites. -/
inductive Paint where
  | solid (color : RGB) (opacity : Option ℚ) (visible : Option Bool)
  | gradient (payload : Nat) (visible : Option Bool)
  | image (payload : Nat) (visible : Option Bool)
  deriving DecidableEq, Repr

/-- The fills property of a node: absent (the node has no fill list), the
mixed marker of the host, or an actual paint list. -/
inductive Fills where
  | absent
  | mixed
  | paints (list : List Paint)
  deriving DecidableEq, Repr

/-- Node types the plugin code distinguishes. -/
inductive NodeType where
  | frame
  | group
  | rectangle
  | text
  | component
  | componentSet
  | page
  | vector
  deriving DecidableEq, Repr

/-- Geometric state of a node (position, size, stroke weight). -/
structure Geom where
  x : ℚ
  y : ℚ
  width : ℚ
  height : ℚ
  strokeWeight : ℚ
  deriving DecidableEq, Repr, Inhabited

/-- All scalar properties of one document node.  Option-valued fields model
property presence for the duck-typed checks in the source. -/
structure NodeInfo where
  ntype : NodeType
  name : String := ""
  geom : Option Geom := none
  fills : Fills := .absent
  cornerRadius : Option ℚ := none
  constraints : Option (String × String) := none
  constrainProportions : Option Bool := none
  canRescale : Bool := true
  canClone : Bool := true
  fontSize : Option ℚ := none
  characters : Option String := none
  layoutMode : Option String := none
  primaryAxisSizingMode : Option String := none
  counterAxisSizingMode : Option String := none
  counterAxisAlignItems : Option String := none
  itemSpacing : Option ℚ := none
  paddingTop : Option ℚ := none
  paddingBottom : Option ℚ := none
  paddingLeft : Option ℚ := none
  paddingRight : Option ℚ := none
  deriving DecidableEq, Repr

/-- A document node: scalar properties plus children (empty for leaves). -/
inductive SceneNode where
  | mk (info : NodeInfo) (children : List SceneNode)

/-- Scalar properties of a node. -/
def SceneNode.info : SceneNode → NodeInfo
  | .mk i _ => i

/-- Children of a node. -/
def SceneNode.children : SceneNode → List SceneNode
  | .mk _ c => c

/-- Name of a node. -/
def SceneNode.name (n : SceneNode) : String := n.info.name

/-- Replace the scalar properties of a node. -/
def SceneNode.modifyInfo (n : SceneNode) (f : NodeInfo → NodeInfo) : SceneNode :=
  .mk (f n.info) n.children

/-- Replace the children of a node. -/
def SceneNode.withChildren (n : SceneNode) (c : List SceneNode) : SceneNode :=
  .mk n.info c

/-- appendChild: add a node at the end of the children list. -/
def SceneNode.appendChild (n : SceneNode) (child : SceneNode) : SceneNode :=
  .mk n.info (n.children ++ [child])

/-- node.name = s -/
def SceneNode.setName (n : SceneNode) (s : String) : SceneNode :=
  n.modifyInfo fun i => { i with name := s }

/-- node.fills = f -/
def SceneNode.setFills (n : SceneNode) (f : Fills) : SceneNode :=
  n.modifyInfo fun i => { i with fills := f }

/-- node.cornerRadius = r -/
def SceneNode.setCornerRadius (n : SceneNode) (r : ℚ) : SceneNode :=
  n.modifyInfo fun i => { i with cornerRadius := some r }

/-- node.constraints = c -/
def SceneNode.setConstraints (n : SceneNode) (c : String × String) : SceneNode :=
  n.modifyInfo fun i => { i with constraints := some c }

/-- node.constrainProportions = b -/
def SceneNode.setConstrainProportions (n : SceneNode) (b : Bool) : SceneNode :=
  n.modifyInfo fun i => { i with constrainProportions := some b }

/-- node.resize(w, h): sets width and height (geometry-bearing nodes only). -/
def SceneNode.resize (n : SceneNode) (w h : ℚ) : SceneNode :=
  match n.info.geom with
  | none => n
  | some g => n.modifyInfo fun i => { i with geom := some { g with width := w, height := h } }

/-- node.x = px; node.y = py -/
def SceneNode.setPos (n : SceneNode) (px py : ℚ) : SceneNode :=
  match n.info.geom with
  | none => n
  | some g => n.modifyInfo fun i => { i with geom := some { g with x := px, y := py } }

instance : Inhabited NodeInfo := ⟨{ ntype := .frame }⟩

instance : Inhabited SceneNode := ⟨.mk default []⟩

mutual

/-- Structural equality test on node trees.  Used to model the JavaScript
identity-based Array.indexOf at the two call sites where the haystack always
physically contains the needle; structural equality coincides with identity
there for all inputs considered in this development. -/
def SceneNode.beq : SceneNode → SceneNode → Bool
  | .mk i cs, .mk j ds => i == j && SceneNode.beqList cs ds

/-- Pointwise structural equality on child lists. -/
def SceneNode.beqList : List SceneNode → List SceneNode → Bool
  | [], [] => true
  | c :: cs, d :: ds => SceneNode.beq c d && SceneNode.beqList cs ds
  | _, _ => false

end

/-- The document: resolution of stable node ids, as used by getNodeById. -/
structure Document where
  nodes : List (String × SceneNode)

/-- figma.getNodeById -/
def Document.getNodeById (doc : Document) (id : String) : Option SceneNode :=
  (doc.nodes.find? fun p => p.1 == id).map fun p => p.2

/-- Resolution through an optional id; getNodeById(null) yields null. -/
def lookupSource (doc : Document) : Option String → Option SceneNode
  | none => none
  | some id => doc.getNodeById id

/-- JavaScript truthiness of a string-or-null value (null and "" are falsy). -/
def truthyOptStr : Option String → Bool
  | none => false
  | some s => s != ""

/-- JavaScript toUpperCase on the character list (ASCII case mapping),
written to evaluate by structural recursion. -/
def sUpper (s : String) : String := String.mk (s.toList.map Char.toUpper)

/-- JavaScript toLowerCase on the character list (ASCII case mapping). -/
def sLower (s : String) : String := String.mk (s.toList.map Char.toLower)

/-- JavaScript String.prototype.trim on the character list. -/
def sTrim (s : String) : String :=
  String.mk (((s.toList.dropWhile Char.isWhitespace).reverse.dropWhile
    Char.isWhitespace).reverse)

/-- Lexicographic comparison of character lists, as the JavaScript string
less-than operator compares code units. -/
def charListLt : List Char → List Char → Bool
  | [], [] => false
  | [], _ :: _ => true
  | _ :: _, [] => false
  | c :: cs, d :: ds => if c < d then true else if d < c then false else charListLt cs ds

/-- The JavaScript string less-than operator. -/
def sLt (a b : String) : Bool := charListLt a.toList b.toList

/-- Value of one hexadecimal digit character (0 for non-digits; callers
guard with isHexDigit). -/
def hexDigitVal (c : Char) : Nat :=
  if '0' ≤ c ∧ c ≤ '9' then c.toNat - Char.toNat '0'
  else if 'a' ≤ c ∧ c ≤ 'f' then c.toNat - Char.toNat 'a' + 10
  else if 'A' ≤ c ∧ c ≤ 'F' then c.toNat - Char.toNat 'A' + 10
  else 0

/-- Whether a character is a hexadecimal digit ([a-f\d] case-insensitive). -/
def isHexDigit (c : Char) : Bool :=
  ('0' ≤ c && c ≤ '9') || ('a' ≤ c && c ≤ 'f') || ('A' ≤ c && c ≤ 'F')

/-- The regex match of hexToRgb: an optional leading #, then exactly six
hexadecimal digits, mapped to three channel values divided by 255. -/
def hexToRgbCore (hex : String) : Option RGB :=
  let chars := match hex.toList with
    | '#' :: rest => rest
    | cs => cs
  match chars with
  | [c1, c2, c3, c4, c5, c6] =>
    if [c1, c2, c3, c4, c5, c6].all isHexDigit then
      some { r := ((hexDigitVal c1 * 16 + hexDigitVal c2 : ℕ) : ℚ) / 255,
             g := ((hexDigitVal c3 * 16 + hexDigitVal c4 : ℕ) : ℚ) / 255,
             b := ((hexDigitVal c5 * 16 + hexDigitVal c6 : ℕ) : ℚ) / 255 }
    else none
  | _ => none

/-- hexToRgb: parse a hex color or throw "Invalid hex color". -/
def hexToRgb (hex : String) : Except String RGB :=
  match hexToRgbCore hex with
  | some c => .ok c
  | none => .error "Invalid hex color"

/-- clampOpacity: non-numbers (undefined) become 1, numbers are clamped
to [0, 1]. -/
def clampOpacity : Option ℚ → ℚ
  | none => 1
  | some q => max 0 (min 1 q)

/-- scaleToFit (ui.tsx): compute the contain scale for the padded box; if it
is exactly 1, do nothing; otherwise rescale (preferred, scales stroke
weights too) or resize (fallback, leaves stroke weights alone). -/
def scaleToFit (node : SceneNode) (maxWidth maxHeight padding : ℚ) : SceneNode :=
  match node.info.geom with
  | none => node
  | some g =>
    let availableWidth := maxWidth - padding * 2
    let availableHeight := maxHeight - padding * 2
    let scaleX := availableWidth / g.width
    let scaleY := availableHeight / g.height
    let scale := min scaleX scaleY
    if scale = 1 then node
    else if node.info.canRescale then
      node.modifyInfo fun i =>
        { i with geom := some { g with
            width := g.width * scale,
            height := g.height * scale,
            strokeWeight := g.strokeWeight * scale } }
    else
      node.modifyInfo fun i =>
        { i with geom := some { g with
            width := g.width * scale,
            height := g.height * scale } }

/-- centerInParent: place the node at the center of the given parent box. -/
def centerInParent (node : SceneNode) (parentWidth parentHeight : ℚ) : SceneNode :=
  match node.info.geom with
  | none => node
  | some g => node.modifyInfo fun i =>
      { i with geom := some { g with
          x := (parentWidth - g.width) / 2,
          y := (parentHeight - g.height) / 2 } }

/-- The per-paint action of applyColorToAllFills: replace the color of a
solid paint, keep every other paint unchanged. -/
def recolorPaint (color : RGB) : Paint → Paint
  | .solid _ opacity visible => .solid color opacity visible
  | p => p

/-- The per-node fills action of applyColorToAllFills: map solid paints when
a concrete paint list is present, leave absent or mixed fills alone. -/
def recolorFills (color : RGB) : Fills → Fills
  | .paints l => .paints (l.map (recolorPaint color))
  | f => f

mutual

/-- applyColorToAllFills: rewrite every solid fill color in the subtree. -/
def applyColorToAllFills (node : SceneNode) (color : RGB) : SceneNode :=
  match node with
  | .mk i cs => .mk { i with fills := recolorFills color i.fills }
      (applyColorToAllFillsList cs color)

/-- Recursion of applyColorToAllFills into the children list. -/
def applyColorToAllFillsList (nodes : List SceneNode) (color : RGB) : List SceneNode :=
  match nodes with
  | [] => []
  | c :: cs => applyColorToAllFills c color :: applyColorToAllFillsList cs color

end

mutual

/-- setScaleConstraintsRecursive: set SCALE constraints and lock aspect
ratio on every node of the subtree that has the respective property. -/
def setScaleConstraintsRecursive (node : SceneNode) : SceneNode :=
  match node with
  | .mk i cs =>
    let i1 := if i.constraints.isSome
      then { i with constraints := some ("SCALE", "SCALE") } else i
    let i2 := if i1.constrainProportions.isSome
      then { i1 with constrainProportions := some true } else i1
    .mk i2 (setScaleConstraintsRecursiveList cs)

/-- Recursion of setScaleConstraintsRecursive into the children list. -/
def setScaleConstraintsRecursiveList (nodes : List SceneNode) : List SceneNode :=
  match nodes with
  | [] => []
  | c :: cs => setScaleConstraintsRecursive c :: setScaleConstraintsRecursiveList cs

end

/-- The visible field of a paint. -/
def paintVisibleField : Paint → Option Bool
  | .solid _ _ v => v
  | .gradient _ v => v
  | .image _ v => v

mutual

/-- removeHiddenFills: drop paints whose visible field is exactly false
(fill.visible !== false keeps undefined and true), recursively. -/
def removeHiddenFills (node : SceneNode) : SceneNode :=
  match node with
  | .mk i cs =>
    let fills2 := match i.fills with
      | .paints l => Fills.paints (l.filter fun f => paintVisibleField f != some false)
      | f => f
    .mk { i with fills := fills2 } (removeHiddenFillsList cs)

/-- Recursion of removeHiddenFills into the children list. -/
def removeHiddenFillsList (nodes : List SceneNode) : List SceneNode :=
  match nodes with
  | [] => []
  | c :: cs => removeHiddenFills c :: removeHiddenFillsList cs

end

/-- Geometry of a freshly created host node (host default state). -/
def freshGeom : Geom := { x := 0, y := 0, width := 100, height := 100, strokeWeight := 1 }

/-- Host default paint of fresh frames, components and rectangles. -/
def defaultWhitePaint : Paint := .solid { r := 1, g := 1, b := 1 } none none

/-- figma.createComponent(): a fresh component (host default state). -/
def figmaCreateComponent : SceneNode :=
  .mk { ntype := .component, name := "Component",
        geom := some freshGeom,
        fills := .paints [defaultWhitePaint],
        cornerRadius := some 0,
        constraints := some ("MIN", "MIN"),
        constrainProportions := some false } []

/-- figma.createRectangle(): a fresh rectangle (host default state). -/
def figmaCreateRectangle : SceneNode :=
  .mk { ntype := .rectangle, name := "Rectangle",
        geom := some freshGeom,
        fills := .paints [defaultWhitePaint],
        cornerRadius := some 0,
        constraints := some ("MIN", "MIN"),
        constrainProportions := some false } []

/-- figma.createFrame(): a fresh frame (host default state). -/
def figmaCreateFrame : SceneNode :=
  .mk { ntype := .frame, name := "Frame",
        geom := some freshGeom,
        fills := .paints [defaultWhitePaint],
        cornerRadius := some 0,
        constraints := some ("MIN", "MIN"),
        constrainProportions := some false } []

/-- figma.createText(): a fresh text node; its geometry is host text layout
state, abstracted as zeros (no theorem reads the geometry of a label; the text
variant builder overrides it through the metrics oracle). -/
def figmaCreateText : SceneNode :=
  .mk { ntype := .text, name := "Text",
        geom := some { x := 0, y := 0, width := 0, height := 0, strokeWeight := 0 },
        fills := .paints [.solid { r := 0, g := 0, b := 0 } none none],
        constraints := some ("MIN", "MIN"),
        constrainProportions := some false,
        fontSize := some 12,
        characters := some "" } []

/-- Shape of an optional variant background. -/
inductive Shape where
  | square
  | circle
  deriving DecidableEq, Repr

/-- Options record of createVariant (ui.tsx).  sourceId is Option-valued
because the handler pushes a possibly null resolved selection id through a
non-null assertion; backgroundColor is string-or-null. -/
structure VariantOptions where
  width : ℚ
  height : ℚ
  sourceId : Option String
  backgroundColor : Option String
  backgroundOpacity : Option ℚ := none
  backgroundShape : Option Shape := none
  colorOverride : Option RGB
  variantName : String
  padding : Option ℚ := none
  deriving Repr

/-- The background rectangle built inside createVariant when a background
color is configured; throws "Invalid hex color" on an unparsable color. -/
def makeBackgroundRect (w h : ℚ) (colorHex : String) (opacity : Option ℚ)
    (shape : Option Shape) : Except String SceneNode :=
  match hexToRgb colorHex with
  | .error e => .error e
  | .ok color =>
    let bg := figmaCreateRectangle.resize w h
    let bg := bg.setFills (.paints [.solid color (some (clampOpacity opacity)) none])
    let bg := bg.setName "Background"
    let bg := if shape = some Shape.circle
      then bg.setCornerRadius (min w h / 2)
      else bg.setCornerRadius 0
    let bg := bg.setConstraints ("SCALE", "SCALE")
    .ok (setScaleConstraintsRecursive bg)

/-- createVariant (ui.tsx): resolve the source (throwing "Source node not
found or cannot be cloned" when it is gone or not clonable), build the fixed
size component, optionally insert a background rectangle, clone the source
(stripping the own fill of a frame clone), scale the clone to fit with the
variant padding (default 16), center it, apply the optional color override,
lock scale constraints recursively, drop hidden fills, and append it. -/
def createVariant (doc : Document) (options : VariantOptions) : Except String SceneNode :=
  match lookupSource doc options.sourceId with
  | none => .error "Source node not found or cannot be cloned"
  | some sourceNode =>
    if sourceNode.info.canClone = false then
      .error "Source node not found or cannot be cloned"
    else
      let component := figmaCreateComponent.resize options.width options.height
      let component := component.setName options.variantName
      let component := component.setCornerRadius 0
      let component := component.setFills (.paints [])
      let component := component.setConstraints ("SCALE", "SCALE")
      let component := if component.info.constrainProportions.isSome
        then component.setConstrainProportions true else component
      let withBg : Except String SceneNode :=
        if truthyOptStr options.backgroundColor then
          match makeBackgroundRect options.width options.height
              (options.backgroundColor.getD "") options.backgroundOpacity
              options.backgroundShape with
          | .error e => .error e
          | .ok bg => .ok (component.appendChild bg)
        else .ok component
      match withBg with
      | .error e => .error e
      | .ok component =>
        let clone := sourceNode
        let clone := if clone.info.fills != Fills.absent && clone.info.ntype == NodeType.frame
          then clone.setFills (.paints []) else clone
        let padding := options.padding.getD 16
        let clone := scaleToFit clone options.width options.height padding
        let clone := centerInParent clone options.width options.height
        let clone := match options.colorOverride with
          | some c => applyColorToAllFills clone c
          | none => clone
        let clone := setScaleConstraintsRecursive clone
        let clone := removeHiddenFills clone
        .ok (if clone.info.ntype != NodeType.page
          then component.appendChild clone else component)

/-- Text metrics oracle: the host text layout, giving the (width, height) of
the text box at a given font size. -/
def TextMetrics : Type := ℚ → ℚ × ℚ

/-- Setting the font size of a text node; the host relayouts the text box,
which the metrics oracle supplies. -/
def setFontSizeWithMetrics (metrics : TextMetrics) (n : SceneNode) (size : ℚ) : SceneNode :=
  n.modifyInfo fun i =>
    let g := i.geom.getD freshGeom
    { i with
      fontSize := some size,
      geom := some { g with width := (metrics size).1, height := (metrics size).2 } }

/-- Width of a node (0 when geometry is absent). -/
def nodeWidth (n : SceneNode) : ℚ := (n.info.geom.getD default).width

/-- Height of a node (0 when geometry is absent). -/
def nodeHeight (n : SceneNode) : ℚ := (n.info.geom.getD default).height

/-- Options record of createTextVariant (ui.tsx). -/
structure TextVariantOptions where
  width : ℚ
  height : ℚ
  text : String
  backgroundColor : Option String
  backgroundOpacity : Option ℚ := none
  backgroundShape : Option Shape := none
  textColor : RGB
  variantName : String
  padding : ℚ
  deriving Repr

/-- createTextVariant (ui.tsx): build the fixed size component with optional
background, create the bold text node, measure it at the oversized initial
font size 200, apply floor(200 * containScale) as the final font size, and
center the text. -/
def createTextVariant (metrics : TextMetrics) (options : TextVariantOptions) :
    Except String SceneNode :=
  let component := figmaCreateComponent.resize options.width options.height
  let component := component.setName options.variantName
  let component := component.setCornerRadius 0
  let component := component.setFills (.paints [])
  let component := component.setConstraints ("SCALE", "SCALE")
  let component := if component.info.constrainProportions.isSome
    then component.setConstrainProportions true else component
  let withBg : Except String SceneNode :=
    if truthyOptStr options.backgroundColor then
      match makeBackgroundRect options.width options.height
          (options.backgroundColor.getD "") options.backgroundOpacity
          options.backgroundShape with
      | .error e => .error e
      | .ok bg => .ok (component.appendChild bg)
    else .ok component
  match withBg with
  | .error e => .error e
  | .ok component =>
    let textNode := figmaCreateText
    let textNode := textNode.modifyInfo fun i =>
      { i with
        characters := some options.text,
        fills := .paints [.solid options.textColor none none],
        name := "Logo Text",
        constraints := some ("SCALE", "SCALE") }
    let textNode := setScaleConstraintsRecursive textNode
    let availableWidth := options.width - options.padding * 2
    let availableHeight := options.height - options.padding * 2
    let initialFontSize : ℚ := 200
    let textNode := setFontSizeWithMetrics metrics textNode initialFontSize
    let scaleX := availableWidth / nodeWidth textNode
    let scaleY := availableHeight / nodeHeight textNode
    let scale := min scaleX scaleY
    let finalFontSize : ℚ := ((⌊initialFontSize * scale⌋ : ℤ) : ℚ)
    let textNode := setFontSizeWithMetrics metrics textNode finalFontSize
    let textNode := textNode.setPos ((options.width - nodeWidth textNode) / 2)
      ((options.height - nodeHeight textNode) / 2)
    let component := component.appendChild textNode
    .ok (removeHiddenFills component)

/-- getVariantGroupLetter: first character of the trimmed product name,
uppercased, defaulting to "A" for a blank name. -/
def getVariantGroupLetter (productName : String) : String :=
  match (sTrim productName).toList with
  | [] => "A"
  | c :: _ => String.singleton c.toUpper

/-- The single-letter test on the trimmed name (the case-insensitive A-Z
regex) recognizing bucket frames. -/
def isSingleLetterName (s : String) : Bool :=
  let t := sTrim s
  t.toList.length == 1 && t.toList.all fun c =>
    ('A' ≤ c && c ≤ 'Z') || ('a' ≤ c && c ≤ 'z')

/-- findVariantGroup, as an index into the content frame children: the first
frame child whose uppercased name equals the letter (the in-place mutation
of the found bucket is modeled by updating at this index). -/
def findVariantGroupIdx (contentFrame : SceneNode) (letter : String) : Option Nat :=
  contentFrame.children.findIdx? fun child =>
    child.info.ntype == NodeType.frame && sUpper child.info.name == letter

/-- getVariantGroups: the frame children with single letter names. -/
def getVariantGroups (contentFrame : SceneNode) : List SceneNode :=
  contentFrame.children.filter fun child =>
    child.info.ntype == NodeType.frame && isSingleLetterName child.info.name

/-- Index of the existing "content" frame among the target children
(case-insensitive name match on frame children). -/
def contentFrameIdx (targetFrame : SceneNode) : Option Nat :=
  targetFrame.children.findIdx? fun child =>
    child.info.ntype == NodeType.frame && sLower child.info.name == "content"

/-- The fresh "content" holder frame created on first placement into a
target: transparent auto layout row with 120 inter-bucket spacing. -/
def newContentFrame : SceneNode :=
  ((figmaCreateFrame.setName "content").setFills (.paints [])).modifyInfo fun i =>
    { i with
      layoutMode := some "HORIZONTAL",
      primaryAxisSizingMode := some "AUTO",
      counterAxisSizingMode := some "AUTO",
      itemSpacing := some 120 }

/-- createVariantGroup: a rounded, padded, vertically stacked bucket frame
carrying a large bold letter label as its first child (the font load that
precedes it is a host capability assumed to succeed). -/
def createVariantGroup (letter : String) : SceneNode :=
  let group := figmaCreateFrame.setName letter
  let group := group.setFills
    (.paints [.solid { r := 725/1000, g := 725/1000, b := 725/1000 } (some 1) none])
  let group := group.setCornerRadius 40
  let group := group.modifyInfo fun i =>
    { i with
      layoutMode := some "VERTICAL",
      primaryAxisSizingMode := some "AUTO",
      counterAxisSizingMode := some "AUTO",
      paddingTop := some 32, paddingBottom := some 32,
      paddingLeft := some 32, paddingRight := some 32,
      itemSpacing := some 32 }
  let label := figmaCreateText.modifyInfo fun i =>
    { i with
      fontSize := some 180,
      characters := some letter,
      fills := .paints [.solid { r := 0, g := 0, b := 0 } none none],
      name := letter }
  group.appendChild label

/-- The insertion index loop of insertVariantGroupAlphabetically: the
position of the first existing bucket whose uppercased letter is strictly
greater than the new letter, or the number of buckets when there is none. -/
def letterInsertIndex (letter : String) : List SceneNode → Nat
  | [] => 0
  | g :: rest =>
    if sLt (sUpper letter) (sUpper g.info.name) then 0
    else letterInsertIndex letter rest + 1

/-- The insertion index loop of insertComponentSetAlphabetically over the
existing component sets (case-insensitive name comparison). -/
def nameInsertIndex (productName : String) : List SceneNode → Nat
  | [] => 0
  | s :: rest =>
    if sLt (sLower productName) (sLower s.info.name) then 0
    else nameInsertIndex productName rest + 1

/-- Array.indexOf on a children list (JavaScript identity modeled as
structural equality; every call site passes an element of the list). -/
def indexOfNode (target : SceneNode) (l : List SceneNode) : Nat :=
  match l.findIdx? fun c => SceneNode.beq c target with
  | some i => i
  | none => l.length

/-- insertChild(i, node): insert a node at an index of the children list. -/
def insertAtIdx (i : Nat) (a : SceneNode) (l : List SceneNode) : List SceneNode :=
  l.take i ++ a :: l.drop i

/-- Remove the first occurrence of a node from a children list (the removal
half of a same-parent insertChild move). -/
def removeFirstNode (target : SceneNode) : List SceneNode → List SceneNode
  | [] => []
  | c :: cs => if SceneNode.beq c target then cs else c :: removeFirstNode target cs

/-- insertVariantGroupAlphabetically: insert the new bucket into the content
frame at the alphabetical index among the existing buckets - before the
first bucket when the index is 0 (appending when there is no bucket yet),
appended when the index is past the end, and otherwise right before the
bucket currently at the index. -/
def insertVariantGroupAlphabetically (targetFrame : SceneNode) (newGroup : SceneNode)
    (letter : String) : SceneNode :=
  let existingGroups := getVariantGroups targetFrame
  let insertIndex := letterInsertIndex letter existingGroups
  if insertIndex = 0 then
    match existingGroups with
    | [] => targetFrame.appendChild newGroup
    | firstGroup :: _ =>
      let firstGroupIndex := indexOfNode firstGroup targetFrame.children
      targetFrame.withChildren (insertAtIdx firstGroupIndex newGroup targetFrame.children)
  else if existingGroups.length ≤ insertIndex then
    targetFrame.appendChild newGroup
  else
    let groupAtIndex := existingGroups.getD insertIndex default
    let childIndex := indexOfNode groupAtIndex targetFrame.children
    targetFrame.withChildren (insertAtIdx childIndex newGroup targetFrame.children)

/-- insertComponentSetAlphabetically: append the set to the bucket, then
move it directly before the existing set it should precede in
case-insensitive name order (the insertChild move removes it from the tail
position first); the label text child is never among the sortable entries. -/
def insertComponentSetAlphabetically (variantGroup : SceneNode) (componentSet : SceneNode)
    (productName : String) : SceneNode :=
  let existingSets := variantGroup.children.filter fun child =>
    child.info.ntype == NodeType.componentSet
  let insertIndex := nameInsertIndex productName existingSets
  let appended := variantGroup.children ++ [componentSet]
  if insertIndex < existingSets.length then
    let targetSet := existingSets.getD insertIndex default
    let targetIndex := indexOfNode targetSet appended
    variantGroup.withChildren
      (insertAtIdx targetIndex componentSet (removeFirstNode componentSet appended))
  else
    variantGroup.withChildren appended

/-- Place the component set into a (found or fresh) content frame: find or
create the letter bucket and insert the set alphabetically within it.  The
source inserts a fresh bucket into the content frame and then mutates the
inserted bucket in place; the model inserts the already-updated bucket,
which lands at the same position because the insertion index only depends
on the other children. -/
def placeIntoContent (contentFrame : SceneNode) (componentSet : SceneNode)
    (productName letter : String) : SceneNode :=
  match findVariantGroupIdx contentFrame letter with
  | some j =>
    let vg := contentFrame.children.getD j default
    contentFrame.withChildren
      (contentFrame.children.set j
        (insertComponentSetAlphabetically vg componentSet productName))
  | none =>
    insertVariantGroupAlphabetically contentFrame
      (insertComponentSetAlphabetically (createVariantGroup letter) componentSet productName)
      letter

/-- The resolved-target branch of placeComponentSetInTarget: find or create
the content holder (the source appends a fresh holder to the target before
filling it in place; the model appends the filled holder, which occupies
the same final position). -/
def placeInTargetFrame (targetFrame : SceneNode) (componentSet : SceneNode)
    (productName : String) : SceneNode :=
  let letter := getVariantGroupLetter productName
  match contentFrameIdx targetFrame with
  | some i =>
    let content := targetFrame.children.getD i default
    targetFrame.withChildren
      (targetFrame.children.set i (placeIntoContent content componentSet productName letter))
  | none =>
    targetFrame.appendChild (placeIntoContent newContentFrame componentSet productName letter)

/-- Outcome of placeComponentSetInTarget: the set parked at the page origin
(with the notices issued), or the updated target frame now containing the
set. -/
inductive PlaceResult where
  | origin (set : SceneNode) (notes : List String)
  | inTarget (targetFrameId : String) (updatedTarget : SceneNode) (notes : List String)

/-- Notices issued during placement. -/
def PlaceResult.notes : PlaceResult → List String
  | .origin _ ns => ns
  | .inTarget _ _ ns => ns

/-- placeComponentSetInTarget: no target reference (null, or the falsy empty
id) parks the set at (0,0) silently; an unresolvable or non-frame target
notifies once and parks the set at (0,0); otherwise the set is filed into
the alphabetical index of the target frame. -/
def placeComponentSetInTarget (doc : Document) (componentSet : SceneNode)
    (targetFrameId : Option String) (productName : String) : PlaceResult :=
  match targetFrameId with
  | none => .origin (componentSet.setPos 0 0) []
  | some tid =>
    if tid = "" then .origin (componentSet.setPos 0 0) []
    else
      match doc.getNodeById tid with
      | some targetNode =>
        if targetNode.info.ntype = NodeType.frame then
          .inTarget tid (placeInTargetFrame targetNode componentSet productName) []
        else
          .origin (componentSet.setPos 0 0) ["Target frame not found, placing at origin"]
      | none =>
        .origin (componentSet.setPos 0 0) ["Target frame not found, placing at origin"]

/-- A selection slot tag. -/
inductive Slot where
  | A
  | B
  | C
  | D
  deriving DecidableEq, Repr

/-- The full user intent of one CREATE_COMPONENT_SET action. -/
structure LogoConfig where
  productName : String
  backgroundColor : String
  backgroundOpacity : ℚ := 1
  bgVariantSource : Slot := .A
  lightVariantSource : Slot := .A
  darkVariantSource : Slot := .A
  faviconVariantSource : Slot := .A
  faviconHasBackground : Bool := true
  faviconBackgroundShape : Shape := .square
  lightModeBlack : Bool := false
  darkModeWhite : Bool := false
  selectionAId : Option String := none
  selectionBId : Option String := none
  selectionCId : Option String := none
  selectionDId : Option String := none
  targetFrameId : Option String := none
  deriving DecidableEq, Repr

/-- resolveSelectionId: map a slot tag to the captured selection id. -/
def resolveSelectionId (source : Slot) (config : LogoConfig) : Option String :=
  match source with
  | .A => config.selectionAId
  | .B => config.selectionBId
  | .C => config.selectionCId
  | .D => config.selectionDId

/-- hasAnySelection: at least one of the four slots holds a truthy id. -/
def hasAnySelection (config : LogoConfig) : Bool :=
  truthyOptStr config.selectionAId || truthyOptStr config.selectionBId ||
  truthyOptStr config.selectionCId || truthyOptStr config.selectionDId

/-- The 315x140 hero-with-background variant call of the handler. -/
def bgVariantOptions (config : LogoConfig) : VariantOptions :=
  { width := 315, height := 140,
    sourceId := resolveSelectionId config.bgVariantSource config,
    backgroundColor := some config.backgroundColor,
    backgroundOpacity := some config.backgroundOpacity,
    backgroundShape := some Shape.square,
    colorOverride := none,
    variantName := "Product=" ++ config.productName ++ ", Size=315x140-BG",
    padding := some 8 }

/-- The 300x100 light variant call (no background; the black override color
is hexToRgb of the constant "#000000", which always parses, so the throwing
conversion is modeled by its parse-only core). -/
def lightVariantOptions (config : LogoConfig) : VariantOptions :=
  { width := 300, height := 100,
    sourceId := resolveSelectionId config.lightVariantSource config,
    backgroundColor := none,
    colorOverride := if config.lightModeBlack then hexToRgbCore "#000000" else none,
    variantName := "Product=" ++ config.productName ++ ", Size=300x100-Light-NoBg",
    padding := some 0 }

/-- The 300x100 dark variant call (no background, optional white override,
constant "#FFFFFF" as for the light variant). -/
def darkVariantOptions (config : LogoConfig) : VariantOptions :=
  { width := 300, height := 100,
    sourceId := resolveSelectionId config.darkVariantSource config,
    backgroundColor := none,
    colorOverride := if config.darkModeWhite then hexToRgbCore "#FFFFFF" else none,
    variantName := "Product=" ++ config.productName ++ ", Size=300x100-Dark-NoBg",
    padding := some 0 }

/-- The 100x100 favicon variant call when the favicon keeps a background. -/
def faviconVariantOptionsWithBg (config : LogoConfig) : VariantOptions :=
  { width := 100, height := 100,
    sourceId := resolveSelectionId config.faviconVariantSource config,
    backgroundColor := some config.backgroundColor,
    backgroundOpacity := some config.backgroundOpacity,
    backgroundShape := some config.faviconBackgroundShape,
    colorOverride := none,
    variantName := "Product=" ++ config.productName ++ ", Size=100x100-Favicon",
    padding := some 20 }

/-- The 100x100 favicon variant call without a background. -/
def faviconVariantOptionsNoBg (config : LogoConfig) : VariantOptions :=
  { width := 100, height := 100,
    sourceId := resolveSelectionId config.faviconVariantSource config,
    backgroundColor := none,
    colorOverride := none,
    variantName := "Product=" ++ config.productName ++ ", Size=100x100-Favicon",
    padding := some 20 }

/-- The sequence of the four builder calls the handler makes, in order. -/
def buildPlan (config : LogoConfig) : List VariantOptions :=
  [bgVariantOptions config, lightVariantOptions config, darkVariantOptions config,
   if config.faviconHasBackground then faviconVariantOptionsWithBg config
   else faviconVariantOptionsNoBg config]

/-- The sequential variant build: each call either contributes its variant
or throws, ending the loop with that error; the variants completed before a
failure are returned with it (they stay in the document, orphaned). -/
def buildLoop (doc : Document) : List VariantOptions → List SceneNode × Option String
  | [] => ([], none)
  | o :: rest =>
    match createVariant doc o with
    | .error e => ([], some e)
    | .ok v =>
      match buildLoop doc rest with
      | (vs, err) => (v :: vs, err)

/-- The slot ids whose non-nullness the handler validates before building
(the favicon slot is exempt exactly when the favicon has no background). -/
def requiredSourceIds (config : LogoConfig) : List (Option String) :=
  [resolveSelectionId config.bgVariantSource config,
   resolveSelectionId config.lightVariantSource config,
   resolveSelectionId config.darkVariantSource config] ++
  (if config.faviconHasBackground = false then []
   else [resolveSelectionId config.faviconVariantSource config])

/-- The blank-name fallback at the top of the handler: a blank product name
is replaced by the default literal. -/
def defaultedConfig (config : LogoConfig) : LogoConfig :=
  if sTrim config.productName = "" then
    { config with productName := "Logo component set" }
  else config

/-- figma.combineAsVariants: one component set owning the given variants as
children (host-computed bounds abstracted as the fresh geometry). -/
def combineAsVariants (variants : List SceneNode) : SceneNode :=
  .mk { ntype := .componentSet, name := "Component Set", geom := some freshGeom,
        fills := .paints [] } variants

/-- The assembler tail of the handler: combine the variants, name the set
after the product, zero corner radius, horizontal auto layout with centered
cross axis and spacing 22. -/
def assembleComponentSet (variants : List SceneNode) (productName : String) : SceneNode :=
  let componentSet := combineAsVariants variants
  let componentSet := componentSet.setName productName
  let componentSet := componentSet.setCornerRadius 0
  componentSet.modifyInfo fun i =>
    { i with
      layoutMode := some "HORIZONTAL",
      primaryAxisSizingMode := some "AUTO",
      counterAxisSizingMode := some "AUTO",
      counterAxisAlignItems := some "CENTER",
      itemSpacing := some 22 }

/-- Observable outcome of one CREATE_COMPONENT_SET action: the notices
shown, the variants built (orphans when the action failed mid-build), the
assembled set when one was produced, and the placement outcome. -/
structure HandlerResult where
  notifications : List String
  builtVariants : List SceneNode
  componentSet : Option SceneNode
  placement : Option PlaceResult

/-- The CREATE_COMPONENT_SET handler (ui.tsx): default a blank name, check
that some selection exists and that every required slot id is set, build the
four variants sequentially, combine, style and place; any exception thrown
in the pipeline is caught and reported as one Error notice. -/
def createComponentSetHandler (doc : Document) (config0 : LogoConfig) : HandlerResult :=
  let config := defaultedConfig config0
  if ! hasAnySelection config then
    { notifications := ["Please select at least one element"],
      builtVariants := [], componentSet := none, placement := none }
  else if (requiredSourceIds config).any (fun id => ! truthyOptStr id) then
    { notifications := ["Some variants require a selection that is not set"],
      builtVariants := [], componentSet := none, placement := none }
  else
    match buildLoop doc (buildPlan config) with
    | (built, some errMsg) =>
      { notifications := ["Error: " ++ errMsg],
        builtVariants := built, componentSet := none, placement := none }
    | (variants, none) =>
      let componentSet := assembleComponentSet variants config.productName
      let placed := placeComponentSetInTarget doc componentSet config.targetFrameId
        config.productName
      { notifications := placed.notes ++ ["Component set created!"],
        builtVariants := variants, componentSet := some componentSet,
        placement := some placed }

/-- A selection reference that resolves: the slot holds a non-empty id whose
node exists in the document and is clonable. -/
def SourceResolves (doc : Document) (sid : Option String) : Prop :=
  ∃ id node, sid = some id ∧ id ≠ "" ∧ doc.getNodeById id = some node ∧
    node.info.canClone = true

/-- A background color the variant builder can consume: empty (falsy, so no
background is drawn) or parsable as a hex color. -/
def HexOk (colorHex : Option String) : Prop :=
  match colorHex with
  | none => True
  | some s => s = "" ∨ (hexToRgbCore s).isSome = true

/-- A source reference that fails to resolve to a clonable node. -/
def SourceFails (doc : Document) (sid : Option String) : Prop :=
  lookupSource doc sid = none ∨
    ∃ node, lookupSource doc sid = some node ∧ node.info.canClone = false

namespace MainRev

/-- Options record of createVariant in the earlier revision (main.ts). -/
structure VariantOptions where
  width : ℚ
  height : ℚ
  sourceId : Option String
  backgroundColor : Option String
  colorOverride : Option RGB
  variantName : String

/-- scaleToFit (main.ts): no early return on scale 1 and no stroke-scaling
rescale branch; nodes exposing resize and geometry are resized
unconditionally. -/
def scaleToFit (node : SceneNode) (maxWidth maxHeight padding : ℚ) : SceneNode :=
  match node.info.geom with
  | none => node
  | some g =>
    let availableWidth := maxWidth - padding * 2
    let availableHeight := maxHeight - padding * 2
    let scaleX := availableWidth / g.width
    let scaleY := availableHeight / g.height
    let scale := min scaleX scaleY
    node.modifyInfo fun i =>
      { i with geom := some { g with
          width := g.width * scale, height := g.height * scale } }

/-- createVariant (main.ts): same source resolution as the later revision,
but with a fixed padding of 16, a background without opacity or shape, no
frame fill stripping, no constraint locking and no fill cleanup. -/
def createVariant (doc : Document) (options : VariantOptions) : Except String SceneNode :=
  match lookupSource doc options.sourceId with
  | none => .error "Source node not found or cannot be cloned"
  | some sourceNode =>
    if sourceNode.info.canClone = false then
      .error "Source node not found or cannot be cloned"
    else
      let component := figmaCreateComponent.resize options.width options.height
      let component := component.setName options.variantName
      let withBg : Except String SceneNode :=
        if truthyOptStr options.backgroundColor then
          match hexToRgb (options.backgroundColor.getD "") with
          | .error e => .error e
          | .ok color =>
            let bg := figmaCreateRectangle.resize options.width options.height
            let bg := bg.setFills (.paints [.solid color none none])
            let bg := bg.setName "Background"
            .ok (component.appendChild bg)
        else .ok component
      match withBg with
      | .error e => .error e
      | .ok component =>
        let clone := sourceNode
        let clone := MainRev.scaleToFit clone options.width options.height 16
        let clone := centerInParent clone options.width options.height
        let clone := match options.colorOverride with
          | some c => applyColorToAllFills clone c
          | none => clone
        .ok (if clone.info.ntype != NodeType.page
          then component.appendChild clone else component)

/-- The A-or-B id resolution of main.ts (any non-A slot reads selection B). -/
def selAB (config : LogoConfig) (s : Slot) : Option String :=
  if s = Slot.A then config.selectionAId else config.selectionBId

/-- The four builder calls made by the main.ts handler, in order. -/
def buildPlan (config : LogoConfig) : List VariantOptions :=
  [{ width := 315, height := 140, sourceId := selAB config config.bgVariantSource,
     backgroundColor := some config.backgroundColor, colorOverride := none,
     variantName := "Product=" ++ config.productName ++ ", Size=315x140-BG" },
   { width := 300, height := 100, sourceId := selAB config config.lightVariantSource,
     backgroundColor := none,
     colorOverride := if config.lightModeBlack then hexToRgbCore "#000000" else none,
     variantName := "Product=" ++ config.productName ++ ", Size=300x100-Light-NoBg" },
   { width := 300, height := 100, sourceId := selAB config config.darkVariantSource,
     backgroundColor := none,
     colorOverride := if config.darkModeWhite then hexToRgbCore "#FFFFFF" else none,
     variantName := "Product=" ++ config.productName ++ ", Size=300x100-Dark-NoBg" },
   { width := 100, height := 100, sourceId := selAB config config.faviconVariantSource,
     backgroundColor := none, colorOverride := none,
     variantName := "Product=" ++ config.productName ++ ", Size=100x100-Favicon" }]

/-- Sequential build loop of the main.ts handler. -/
def buildLoop (doc : Document) : List VariantOptions → List SceneNode × Option String
  | [] => ([], none)
  | o :: rest =>
    match createVariant doc o with
    | .error e => ([], some e)
    | .ok v =>
      match buildLoop doc rest with
      | (vs, err) => (v :: vs, err)

/-- The CREATE_COMPONENT_SET handler of the earlier revision (main.ts): a
blank product name is a hard validation error, selection A is required, the
four A-or-B slot ids must be set; on success the set is combined and named,
with no placement organizer and no layout styling. -/
def createComponentSetHandler (doc : Document) (config : LogoConfig) : HandlerResult :=
  if sTrim config.productName = "" then
    { notifications := ["Please enter a product name"],
      builtVariants := [], componentSet := none, placement := none }
  else if ! truthyOptStr config.selectionAId then
    { notifications := ["Please select at least one element"],
      builtVariants := [], componentSet := none, placement := none }
  else if ([selAB config config.bgVariantSource, selAB config config.lightVariantSource,
            selAB config config.darkVariantSource,
            selAB config config.faviconVariantSource].any fun id => ! truthyOptStr id) then
    { notifications := ["Some variants require Selection B, but it is not set"],
      builtVariants := [], componentSet := none, placement := none }
  else
    match buildLoop doc (buildPlan config) with
    | (built, some errMsg) =>
      { notifications := ["Error: " ++ errMsg],
        builtVariants := built, componentSet := none, placement := none }
    | (variants, none) =>
      let componentSet := (combineAsVariants variants).setName config.productName
      { notifications := ["Component set created!"],
        builtVariants := variants, componentSet := some componentSet,
        placement := none }

end MainRev

/-- Concrete node used by several witnesses: a clonable 10 by 5 vector. -/
def witnessVector : SceneNode :=
  .mk { ntype := .vector, name := "Logo",
        geom := some { x := 0, y := 0, width := 10, height := 5, strokeWeight := 1 },
        fills := .paints [.solid { r := 0, g := 0, b := 1 } none none] } []

/-- A one-node document: a clonable vector under the id "vec". -/
def docOneVector : Document := ⟨[("vec", witnessVector)]⟩

/-- A complete valid configuration for the product "Acme", all four slots
fed from selection A. -/
def acmeConfig : LogoConfig :=
  { productName := "Acme", backgroundColor := "FFFFFF",
    selectionAId := some "vec" }

/-- Valid build, but the background color does not parse as hex. -/
def invalidColorConfig : LogoConfig :=
  { acmeConfig with backgroundColor := "not-a-color" }

/-- Valid build, but the product name is whitespace only. -/
def blankNameConfig : LogoConfig :=
  { acmeConfig with productName := "   " }

/-- The light slot reads selection B, whose id resolves to no node; the
background color is also unparsable, so the background build throws first. -/
def badColorMissingLightConfig : LogoConfig :=
  { productName := "P", backgroundColor := "ZZZZZZ",
    lightVariantSource := .B, selectionAId := some "vec",
    selectionBId := some "missing" }

/-- The light slot reads selection B, whose id resolves to no node; the
other slots resolve and the background color parses. -/
def missingLightConfig : LogoConfig :=
  { productName := "P", backgroundColor := "FFFFFF",
    lightVariantSource := .B, selectionAId := some "vec",
    selectionBId := some "missing" }

/-- Favicon without background and with its slot (D) never captured, while
the other three slots resolve via selection A. -/
def faviconGapConfig : LogoConfig :=
  { productName := "Gap", backgroundColor := "FFFFFF",
    faviconHasBackground := false, faviconVariantSource := .D,
    selectionAId := some "vec" }

/-- A config with no captured selection at all and no favicon background. -/
def noSelectionsConfig : LogoConfig :=
  { productName := "P", backgroundColor := "FFFFFF",
    faviconHasBackground := false }

/-- Valid build whose target reference resolves to no node. -/
def missingTargetConfig : LogoConfig :=
  { acmeConfig with targetFrameId := some "tgt" }

/-- An empty target frame for the placement scenario. -/
def emptyTargetFrame : SceneNode := .mk { ntype := .frame, name := "Target" } []

/-- A component set stand-in named after a product, with a distinguishing
width so that two equally named sets stay distinguishable. -/
def namedSet (productName : String) (w : ℚ) : SceneNode :=
  .mk { ntype := .componentSet, name := productName,
        geom := some { x := 0, y := 0, width := w, height := 1, strokeWeight := 0 } } []

/-- The target after placing a set for "Banana" into the empty target. -/
def placedBanana : SceneNode :=
  placeInTargetFrame emptyTargetFrame (namedSet "Banana" 1) "Banana"

/-- ... then a set for "Apple". -/
def placedApple : SceneNode :=
  placeInTargetFrame placedBanana (namedSet "Apple" 2) "Apple"

/-- ... then a second set for "Apple". -/
def placedApple2 : SceneNode :=
  placeInTargetFrame placedApple (namedSet "Apple" 3) "Apple"

/-- Names of the children of a node. -/
def childNames (n : SceneNode) : List String := n.children.map SceneNode.name

/-- Name and width of each child (the width distinguishes equally named
sets, and is 0 for the label text). -/
def childNameWidths (n : SceneNode) : List (String × ℚ) :=
  n.children.map fun c => (c.info.name, nodeWidth c)

instance : Inhabited VariantOptions :=
  ⟨{ width := 0, height := 0, sourceId := none, backgroundColor := none,
     colorOverride := none, variantName := "" }⟩

/-- A target reference that no longer resolves to a valid container frame:
the id resolves to no node, or to a node that is not a frame. -/
def BadTargetRef (doc : Document) (tid : String) : Prop :=
  match doc.getNodeById tid with
  | none => True
  | some n => n.info.ntype ≠ NodeType.frame

/-- Concrete text metrics for witnesses: a text box of width size/5 and
height size/10 at every font size. -/
def textMetricsWitness : TextMetrics := fun size => (size / 5, size / 10)

/-- Concrete text variant options for the font size witness. -/
def textVariantOptionsWitness : TextVariantOptions :=
  { width := 315, height := 140, text := "Acme", backgroundColor := none,
    textColor := { r := 0, g := 0, b := 0 }, variantName := "T", padding := 8 }

/-- Relation between an original paint and its recolored form: a solid paint
receives the new color with its opacity and visibility fields preserved; any
non-solid paint is unchanged. -/
def PaintRecolored (color : RGB) : Paint → Paint → Prop
  | .solid _ opacity visible, q => q = .solid color opacity visible
  | p, q => q = p

/-- Relation between the original and recolored fills property of a node:
concrete paint lists are transformed pointwise, absent and mixed fills are
untouched. -/
def FillsRecolored (color : RGB) : Fills → Fills → Prop
  | .paints l, .paints l2 => List.Forall₂ (PaintRecolored color) l l2
  | .paints _, _ => False
  | f, f2 => f2 = f

/-- Relation between a node tree and its recolored form, at every depth:
fills are transformed per FillsRecolored, every other node property is
untouched, and the children are in pointwise relation. -/
inductive RecolorKeepsStructure (color : RGB) : SceneNode → SceneNode → Prop where
  | node : ∀ (i i2 : NodeInfo) (cs cs2 : List SceneNode),
      i2 = { i with fills := i2.fills } →
      FillsRecolored color i.fills i2.fills →
      List.Forall₂ (RecolorKeepsStructure color) cs cs2 →
      RecolorKeepsStructure color (.mk i cs) (.mk i2 cs2)

end NiLogo

namespace NiLogo

/-- Custom induction principle for the nested node/child-list recursion. -/
theorem SceneNode.inductionOn (P : SceneNode → Prop)
    (step : ∀ i cs, (∀ c ∈ cs, P c) → P (.mk i cs)) : ∀ n, P n
  | .mk i cs => step i cs (fun c hc => SceneNode.inductionOn P step c)
termination_by n => sizeOf n
decreasing_by
  have := List.sizeOf_lt_of_mem hc
  simp only [SceneNode.mk.sizeOf_spec]
  omega

/-- Projection of the node constructor to its scalar properties. -/
@[simp] theorem SceneNode.info_mk (i : NodeInfo) (cs : List SceneNode) :
    (SceneNode.mk i cs).info = i := rfl

/-- Projection of the node constructor to its children. -/
@[simp] theorem SceneNode.children_mk (i : NodeInfo) (cs : List SceneNode) :
    (SceneNode.mk i cs).children = cs := rfl

/-- Scalar properties after modifyInfo. -/
@[simp] theorem SceneNode.info_modifyInfo (n : SceneNode) (f : NodeInfo → NodeInfo) :
    (n.modifyInfo f).info = f n.info := rfl

/-- Children after modifyInfo. -/
@[simp] theorem SceneNode.children_modifyInfo (n : SceneNode) (f : NodeInfo → NodeInfo) :
    (n.modifyInfo f).children = n.children := rfl

/-- Extensionality: a node is its constructor applied to its projections. -/
@[simp] theorem SceneNode.mk_info_children (n : SceneNode) :
    SceneNode.mk n.info n.children = n := by
  cases n
  rfl

/-- C2. For every node carrying positive width and height and every target
box, scaleToFit computes scale = min((maxW-2p)/width, (maxH-2p)/height);
when the scale is 1 the node is untouched, and otherwise both dimensions are
multiplied by the scale, after which they fit in the padded box and the
aspect ratio is preserved. -/
theorem scaleToFit_fits_and_preserves_aspect (node : SceneNode) (g : Geom)
    (maxWidth maxHeight padding : ℚ)
    (hg : node.info.geom = some g) (hw : 0 < g.width) (hh : 0 < g.height) :
    (min ((maxWidth - padding * 2) / g.width) ((maxHeight - padding * 2) / g.height) = 1 →
      scaleToFit node maxWidth maxHeight padding = node) ∧
    (min ((maxWidth - padding * 2) / g.width) ((maxHeight - padding * 2) / g.height) ≠ 1 →
      ∃ g2, (scaleToFit node maxWidth maxHeight padding).info.geom = some g2 ∧
        g2.width = g.width *
          min ((maxWidth - padding * 2) / g.width) ((maxHeight - padding * 2) / g.height) ∧
        g2.height = g.height *
          min ((maxWidth - padding * 2) / g.width) ((maxHeight - padding * 2) / g.height) ∧
        g2.width ≤ maxWidth - padding * 2 ∧
        g2.height ≤ maxHeight - padding * 2 ∧
        g2.width * g.height = g2.height * g.width) := by
  have hwne : g.width ≠ 0 := ne_of_gt hw
  have hhne : g.height ≠ 0 := ne_of_gt hh
  set s := min ((maxWidth - padding * 2) / g.width) ((maxHeight - padding * 2) / g.height) with hs
  constructor
  · intro h1
    unfold scaleToFit
    rw [hg]
    simp [← hs, h1]
  · intro hne
    have hfitW : g.width * s ≤ maxWidth - padding * 2 := by
      have h1 : g.width * s ≤ g.width * ((maxWidth - padding * 2) / g.width) :=
        mul_le_mul_of_nonneg_left (min_le_left _ _) (le_of_lt hw)
      have h2 : g.width * ((maxWidth - padding * 2) / g.width) = maxWidth - padding * 2 := by
        field_simp
      rw [h2] at h1
      exact h1
    have hfitH : g.height * s ≤ maxHeight - padding * 2 := by
      have h1 : g.height * s ≤ g.height * ((maxHeight - padding * 2) / g.height) :=
        mul_le_mul_of_nonneg_left (min_le_right _ _) (le_of_lt hh)
      have h2 : g.height * ((maxHeight - padding * 2) / g.height) = maxHeight - padding * 2 := by
        field_simp
      rw [h2] at h1
      exact h1
    unfold scaleToFit
    rw [hg]
    dsimp only
    rw [← hs, if_neg hne]
    by_cases hr : node.info.canRescale = true
    · rw [if_pos hr]
      exact ⟨_, rfl, rfl, rfl, hfitW, hfitH, by ring⟩
    · rw [if_neg hr]
      exact ⟨_, rfl, rfl, rfl, hfitW, hfitH, by ring⟩

/-- Witness for C2 at a concrete node and box (scale is 8 here). -/
theorem scaleToFit_fits_and_preserves_aspect_witness :
    witnessVector.info.geom =
      some { x := 0, y := 0, width := 10, height := 5, strokeWeight := 1 } ∧
    (0 : ℚ) < 10 ∧
    ((min (((100 : ℚ) - 10 * 2) / 10) (((60 : ℚ) - 10 * 2) / 5) = 1 →
      scaleToFit witnessVector 100 60 10 = witnessVector) ∧
    (min (((100 : ℚ) - 10 * 2) / 10) (((60 : ℚ) - 10 * 2) / 5) ≠ 1 →
      ∃ g2, (scaleToFit witnessVector 100 60 10).info.geom = some g2 ∧
        g2.width = 10 * min (((100 : ℚ) - 10 * 2) / 10) (((60 : ℚ) - 10 * 2) / 5) ∧
        g2.height = 5 * min (((100 : ℚ) - 10 * 2) / 10) (((60 : ℚ) - 10 * 2) / 5) ∧
        g2.width ≤ 100 - 10 * 2 ∧
        g2.height ≤ 60 - 10 * 2 ∧
        g2.width * 5 = g2.height * 10)) :=
  ⟨rfl, by norm_num,
    scaleToFit_fits_and_preserves_aspect witnessVector
      { x := 0, y := 0, width := 10, height := 5, strokeWeight := 1 }
      100 60 10 rfl (by norm_num) (by norm_num)⟩

/-- C9. centerInParent puts a geometry-bearing node at
((w - width)/2, (h - height)/2) without changing its size, and applying it
twice gives the same result as applying it once. -/
theorem centerInParent_position_idempotent (node : SceneNode) (g : Geom)
    (parentWidth parentHeight : ℚ) (hg : node.info.geom = some g) :
    (∃ g2, (centerInParent node parentWidth parentHeight).info.geom = some g2 ∧
      g2.x = (parentWidth - g.width) / 2 ∧
      g2.y = (parentHeight - g.height) / 2 ∧
      g2.width = g.width ∧ g2.height = g.height) ∧
    centerInParent (centerInParent node parentWidth parentHeight) parentWidth parentHeight =
      centerInParent node parentWidth parentHeight := by
  constructor
  · unfold centerInParent
    rw [hg]
    exact ⟨_, rfl, rfl, rfl, rfl, rfl⟩
  · unfold centerInParent
    rw [hg]
    cases node with
    | mk i cs => simp [SceneNode.modifyInfo]

/-- The per-node fills rewrite satisfies the per-fills relation. -/
theorem fillsRecolored_recolorFills (color : RGB) (f : Fills) :
    FillsRecolored color f (recolorFills color f) := by
  cases f with
  | absent => simp [FillsRecolored, recolorFills]
  | mixed => simp [FillsRecolored, recolorFills]
  | paints l =>
    show List.Forall₂ (PaintRecolored color) l (l.map (recolorPaint color))
    induction l with
    | nil => exact List.Forall₂.nil
    | cons p ps ihp =>
      refine List.Forall₂.cons ?_ ihp
      cases p <;> simp [PaintRecolored, recolorPaint]

/-- The children recursion produces pointwise related child lists. -/
theorem forall₂_applyColorToAllFillsList (color : RGB) (cs : List SceneNode)
    (ih : ∀ c ∈ cs, RecolorKeepsStructure color c (applyColorToAllFills c color)) :
    List.Forall₂ (RecolorKeepsStructure color) cs (applyColorToAllFillsList cs color) := by
  induction cs with
  | nil =>
    rw [applyColorToAllFillsList]
    exact List.Forall₂.nil
  | cons c cs ihc =>
    rw [applyColorToAllFillsList]
    exact List.Forall₂.cons (ih c (by simp)) (ihc fun d hd => ih d (by simp [hd]))

/-- C6. applyColorToAllFills replaces the color of every solid fill while
preserving the other fields of the paint, leaves every non-solid fill unchanged,
and recurses into every child; in particular a node with one solid and one
gradient fill ends with the solid fill recolored and the gradient fill
unchanged. -/
theorem applyColorToAllFills_selective :
    (∀ (node : SceneNode) (color : RGB),
      RecolorKeepsStructure color node (applyColorToAllFills node color)) ∧
    (∀ (i : NodeInfo) (cs : List SceneNode) (c0 color : RGB) (op : Option ℚ)
        (vis : Option Bool) (payload : Nat) (gvis : Option Bool),
      applyColorToAllFills
        (.mk { i with fills := .paints [.solid c0 op vis, .gradient payload gvis] } cs) color =
      .mk { i with fills := .paints [.solid color op vis, .gradient payload gvis] }
        (applyColorToAllFillsList cs color)) := by
  constructor
  · intro node color
    induction node using SceneNode.inductionOn with
    | step i cs ih =>
      rw [applyColorToAllFills]
      exact RecolorKeepsStructure.node i _ cs _ rfl
        (fillsRecolored_recolorFills color i.fills)
        (forall₂_applyColorToAllFillsList color cs ih)
  · intro i cs c0 color op vis payload gvis
    rw [applyColorToAllFills]
    simp [recolorFills, recolorPaint]

/-- Witness for C9 at the concrete 10 by 5 vector inside a 100 by 60 box. -/
theorem centerInParent_position_idempotent_witness :
    witnessVector.info.geom =
      some { x := 0, y := 0, width := 10, height := 5, strokeWeight := 1 } ∧
    ((∃ g2, (centerInParent witnessVector 100 60).info.geom = some g2 ∧
      g2.x = ((100 : ℚ) - 10) / 2 ∧
      g2.y = ((60 : ℚ) - 5) / 2 ∧
      g2.width = 10 ∧ g2.height = 5) ∧
    centerInParent (centerInParent witnessVector 100 60) 100 60 =
      centerInParent witnessVector 100 60) :=
  ⟨rfl, centerInParent_position_idempotent witnessVector
    { x := 0, y := 0, width := 10, height := 5, strokeWeight := 1 } 100 60 rfl⟩

/-- Scalar properties after appendChild. -/
@[simp] theorem SceneNode.info_appendChild (n c : SceneNode) :
    (n.appendChild c).info = n.info := rfl

/-- Children after appendChild. -/
@[simp] theorem SceneNode.children_appendChild (n c : SceneNode) :
    (n.appendChild c).children = n.children ++ [c] := rfl

/-- Scalar properties after withChildren. -/
@[simp] theorem SceneNode.info_withChildren (n : SceneNode) (cs : List SceneNode) :
    (n.withChildren cs).info = n.info := rfl

/-- Children after withChildren. -/
@[simp] theorem SceneNode.children_withChildren (n : SceneNode) (cs : List SceneNode) :
    (n.withChildren cs).children = cs := rfl

/-- The blank-name fallback leaves a non-blank name unchanged. -/
theorem defaultedConfig_of_nonblank (config : LogoConfig)
    (h : sTrim config.productName ≠ "") : defaultedConfig config = config := by
  unfold defaultedConfig
  rw [if_neg h]

/-- The blank-name fallback either keeps the config or only rewrites the
product name. -/
theorem defaultedConfig_cases (config : LogoConfig) :
    defaultedConfig config = config ∨
    defaultedConfig config = { config with productName := "Logo component set" } := by
  unfold defaultedConfig
  by_cases h : sTrim config.productName = ""
  · rw [if_pos h]
    right
    rfl
  · rw [if_neg h]
    left
    rfl

/-- Every field other than the product name survives the blank-name
fallback. -/
theorem defaultedConfig_fields (config : LogoConfig) :
    (defaultedConfig config).bgVariantSource = config.bgVariantSource ∧
    (defaultedConfig config).lightVariantSource = config.lightVariantSource ∧
    (defaultedConfig config).darkVariantSource = config.darkVariantSource ∧
    (defaultedConfig config).faviconVariantSource = config.faviconVariantSource ∧
    (defaultedConfig config).faviconHasBackground = config.faviconHasBackground ∧
    (defaultedConfig config).faviconBackgroundShape = config.faviconBackgroundShape ∧
    (defaultedConfig config).backgroundColor = config.backgroundColor ∧
    (defaultedConfig config).backgroundOpacity = config.backgroundOpacity ∧
    (defaultedConfig config).lightModeBlack = config.lightModeBlack ∧
    (defaultedConfig config).darkModeWhite = config.darkModeWhite ∧
    (defaultedConfig config).targetFrameId = config.targetFrameId ∧
    (defaultedConfig config).selectionAId = config.selectionAId ∧
    (defaultedConfig config).selectionBId = config.selectionBId ∧
    (defaultedConfig config).selectionCId = config.selectionCId ∧
    (defaultedConfig config).selectionDId = config.selectionDId := by
  rcases defaultedConfig_cases config with h | h <;> rw [h] <;>
    exact ⟨rfl, rfl, rfl, rfl, rfl, rfl, rfl, rfl, rfl, rfl, rfl, rfl, rfl, rfl, rfl⟩

/-- Slot resolution is insensitive to the blank-name fallback. -/
theorem resolveSelectionId_defaultedConfig (s : Slot) (config : LogoConfig) :
    resolveSelectionId s (defaultedConfig config) = resolveSelectionId s config := by
  obtain ⟨-, -, -, -, -, -, -, -, -, -, -, hA, hB, hC, hD⟩ := defaultedConfig_fields config
  cases s <;> simp [resolveSelectionId, hA, hB, hC, hD]

/-- hasAnySelection is insensitive to the blank-name fallback. -/
theorem hasAnySelection_defaultedConfig (config : LogoConfig) :
    hasAnySelection (defaultedConfig config) = hasAnySelection config := by
  obtain ⟨-, -, -, -, -, -, -, -, -, -, -, hA, hB, hC, hD⟩ := defaultedConfig_fields config
  simp [hasAnySelection, hA, hB, hC, hD]

/-- The validated id list is insensitive to the blank-name fallback. -/
theorem requiredSourceIds_defaultedConfig (config : LogoConfig) :
    requiredSourceIds (defaultedConfig config) = requiredSourceIds config := by
  obtain ⟨h1, h2, h3, h4, h5, -⟩ := defaultedConfig_fields config
  simp only [requiredSourceIds, h1, h2, h3, h4, h5,
    resolveSelectionId_defaultedConfig]

/-- A resolving selection reference is truthy. -/
theorem truthyOptStr_of_resolves (doc : Document) (sid : Option String)
    (h : SourceResolves doc sid) : truthyOptStr sid = true := by
  obtain ⟨id, node, hid, hne, -, -⟩ := h
  subst hid
  simp [truthyOptStr, hne]

/-- A slot whose reference resolves makes hasAnySelection true. -/
theorem hasAnySelection_of_resolves (doc : Document) (config : LogoConfig) (s : Slot)
    (h : SourceResolves doc (resolveSelectionId s config)) :
    hasAnySelection config = true := by
  obtain ⟨id, node, hid, hne, -, -⟩ := h
  cases s <;>
    simp only [resolveSelectionId] at hid <;>
    simp [hasAnySelection, truthyOptStr, hid, hne]

/-- A source reference that fails to resolve to a clonable node makes
createVariant throw the source-not-found error before creating anything. -/
theorem createVariant_sourceFails (doc : Document) (opts : VariantOptions)
    (h : SourceFails doc opts.sourceId) :
    createVariant doc opts = .error "Source node not found or cannot be cloned" := by
  unfold createVariant
  rcases h with h | ⟨node, h1, h2⟩
  · rw [h]
  · rw [h1]
    dsimp only
    rw [if_pos h2]

/-- The final append guard of the variant builders never changes the scalar
properties of the component. -/
theorem pageGuard_info (component clone : SceneNode) :
    (if clone.info.ntype != NodeType.page then component.appendChild clone
     else component).info = component.info := by
  split <;> simp

/-- A resolving source and a consumable background color make createVariant
succeed, with the variant a component named and sized per its options. -/
theorem createVariant_ok (doc : Document) (opts : VariantOptions)
    (hsrc : SourceResolves doc opts.sourceId) (hhex : HexOk opts.backgroundColor) :
    ∃ v, createVariant doc opts = .ok v ∧
      v.info.ntype = NodeType.component ∧
      v.info.name = opts.variantName ∧
      nodeWidth v = opts.width ∧ nodeHeight v = opts.height := by
  obtain ⟨id, node, hid, hne, hget, hclone⟩ := hsrc
  unfold createVariant
  rw [hid]
  simp only [lookupSource]
  rw [hget]
  dsimp only
  rw [hclone]
  simp only [Bool.true_eq_false, if_false]
  cases ht : truthyOptStr opts.backgroundColor with
  | false =>
    simp only [ht, Bool.false_eq_true, if_false]
    refine ⟨_, rfl, ?_, ?_, ?_, ?_⟩ <;> simp only [nodeWidth, nodeHeight, pageGuard_info] <;>
      simp [figmaCreateComponent, SceneNode.resize, SceneNode.setName,
        SceneNode.setCornerRadius, SceneNode.setFills, SceneNode.setConstraints,
        SceneNode.setConstrainProportions, SceneNode.modifyInfo, freshGeom,
        nodeWidth, nodeHeight]
  | true =>
    cases hbc : opts.backgroundColor with
    | none =>
      rw [hbc] at ht
      simp [truthyOptStr] at ht
    | some str =>
      rw [hbc] at ht hhex
      have hsne : str ≠ "" := by simpa [truthyOptStr] using ht
      unfold HexOk at hhex
      rcases hhex with h0 | hsome
      · exact absurd h0 hsne
      · obtain ⟨c, hc⟩ := Option.isSome_iff_exists.mp hsome
        simp only [eq_self_iff_true, if_true, Option.getD_some]
        unfold makeBackgroundRect hexToRgb
        rw [hc]
        dsimp only
        refine ⟨_, rfl, ?_, ?_, ?_, ?_⟩ <;> simp only [nodeWidth, nodeHeight, pageGuard_info] <;>
          simp [figmaCreateComponent, SceneNode.resize, SceneNode.setName,
            SceneNode.setCornerRadius, SceneNode.setFills, SceneNode.setConstraints,
            SceneNode.setConstrainProportions, SceneNode.modifyInfo, freshGeom,
            nodeWidth, nodeHeight]
/-- When every builder call before index k succeeds and the call at index k
throws the source-not-found error, the build loop stops there: it returns
exactly the k variants already built, paired with that error. -/
theorem buildLoop_fails (doc : Document) (plan : List VariantOptions) :
    ∀ k : Nat, k < plan.length →
    (∀ j, j < k → ∃ v, createVariant doc (plan.getD j default) = .ok v) →
    createVariant doc (plan.getD k default) =
      .error "Source node not found or cannot be cloned" →
    ∃ built, buildLoop doc plan =
        (built, some "Source node not found or cannot be cloned") ∧
      built.length = k ∧
      ∀ j, j < k →
        createVariant doc (plan.getD j default) = .ok (built.getD j default) := by
  induction plan with
  | nil =>
    intro k hk
    simp at hk
  | cons o rest ih =>
    intro k hk hok hfail
    cases k with
    | zero =>
      rw [buildLoop]
      simp only [List.getD_cons_zero] at hfail
      rw [hfail]
      exact ⟨[], rfl, rfl, fun j hj => absurd hj (by omega)⟩
    | succ k =>
      obtain ⟨v0, hv0⟩ := hok 0 (Nat.succ_pos k)
      simp only [List.getD_cons_zero] at hv0
      obtain ⟨built, hbl, hlen, hidx⟩ := ih k (by simpa using hk)
        (fun j hj => by simpa using hok (j + 1) (by omega))
        (by simpa using hfail)
      rw [buildLoop, hv0, hbl]
      refine ⟨v0 :: built, rfl, by simp [hlen], ?_⟩
      intro j hj
      cases j with
      | zero => simpa using hv0
      | succ j => simpa using hidx j (by omega)

/-- When every builder call succeeds, the build loop returns all variants
in order, each related to its options record. -/
theorem buildLoop_ok (doc : Document) (plan : List VariantOptions)
    (hok : ∀ o ∈ plan, ∃ v, createVariant doc o = .ok v) :
    ∃ vs, buildLoop doc plan = (vs, none) ∧
      List.Forall₂ (fun o v => createVariant doc o = .ok v) plan vs := by
  induction plan with
  | nil => exact ⟨[], rfl, List.Forall₂.nil⟩
  | cons o rest ih =>
    obtain ⟨v0, hv0⟩ := hok o (by simp)
    obtain ⟨vs, hbl, hf⟩ := ih fun p hp => hok p (by simp [hp])
    rw [buildLoop, hv0, hbl]
    exact ⟨v0 :: vs, rfl, List.Forall₂.cons hv0 hf⟩

/-- Once validation passes, the handler is the build-assemble-place tail on
the name-defaulted config. -/
theorem createComponentSetHandler_build (doc : Document) (config : LogoConfig)
    (hsel : hasAnySelection config = true)
    (hids : (requiredSourceIds config).any (fun id => ! truthyOptStr id) = false) :
    createComponentSetHandler doc config =
      match buildLoop doc (buildPlan (defaultedConfig config)) with
      | (built, some errMsg) =>
        { notifications := ["Error: " ++ errMsg],
          builtVariants := built, componentSet := none, placement := none }
      | (variants, none) =>
        let componentSet := assembleComponentSet variants (defaultedConfig config).productName
        let placed := placeComponentSetInTarget doc componentSet
          (defaultedConfig config).targetFrameId (defaultedConfig config).productName
        { notifications := placed.notes ++ ["Component set created!"],
          builtVariants := variants, componentSet := some componentSet,
          placement := some placed } := by
  unfold createComponentSetHandler
  dsimp only
  rw [hasAnySelection_defaultedConfig, hsel, requiredSourceIds_defaultedConfig, hids]
  simp

/-- The bucket insertion loop computes the first position whose letter
compares strictly greater (case-insensitively), or the list length. -/
theorem letterInsertIndex_eq_findIdx (letter : String) (groups : List SceneNode) :
    letterInsertIndex letter groups =
      groups.findIdx fun g => sLt (sUpper letter) (sUpper g.info.name) := by
  induction groups with
  | nil => rfl
  | cons g rest ih =>
    rw [letterInsertIndex, List.findIdx_cons]
    cases h : sLt (sUpper letter) (sUpper g.info.name) <;> simp [h, ih]

/-- The set insertion loop computes the first position whose name compares
strictly greater (case-insensitively), or the list length. -/
theorem nameInsertIndex_eq_findIdx (productName : String) (sets : List SceneNode) :
    nameInsertIndex productName sets =
      sets.findIdx fun s => sLt (sLower productName) (sLower s.info.name) := by
  induction sets with
  | nil => rfl
  | cons s rest ih =>
    rw [nameInsertIndex, List.findIdx_cons]
    cases h : sLt (sLower productName) (sLower s.info.name) <;> simp [h, ih]

/-- C3.  Placement is deterministic and alphabetically ordered: after
placing "Banana" and then "Apple" into an initially empty target, the
buckets of the content holder are ordered [A, B]; a second "Apple" set lands in
bucket A directly after the first, with the label child (width 0) kept in
front and never sorted; and in general both insertion loops pick the first
position where the new key is strictly less (case-insensitively) than an
key of an existing entry, appending when none qualifies. -/
theorem placement_alphabetical_order :
    childNames placedApple2 = ["content"] ∧
    childNames (placedApple2.children.getD 0 default) = ["A", "B"] ∧
    childNameWidths ((placedApple2.children.getD 0 default).children.getD 0 default) =
      [("A", 0), ("Apple", 2), ("Apple", 3)] ∧
    childNameWidths ((placedApple2.children.getD 0 default).children.getD 1 default) =
      [("B", 0), ("Banana", 1)] ∧
    (∀ (letter : String) (groups : List SceneNode),
      letterInsertIndex letter groups =
        groups.findIdx fun g => sLt (sUpper letter) (sUpper g.info.name)) ∧
    (∀ (productName : String) (sets : List SceneNode),
      nameInsertIndex productName sets =
        sets.findIdx fun s => sLt (sLower productName) (sLower s.info.name)) :=
  ⟨by with_unfolding_all decide, by with_unfolding_all decide,
    by with_unfolding_all decide, by with_unfolding_all decide,
    letterInsertIndex_eq_findIdx, nameInsertIndex_eq_findIdx⟩

/-- C8.  Placement fallback: a null target reference parks the set at the
page origin with no notice; a reference that no longer resolves to a frame
notifies once and parks the set at the origin; and on the concrete valid
build whose target is missing, the whole create action still succeeds with
the set placed at the origin. -/
theorem placement_fallback_origin :
    (∀ (doc : Document) (set : SceneNode) (productName : String),
      placeComponentSetInTarget doc set none productName = .origin (set.setPos 0 0) []) ∧
    (∀ (n : SceneNode) (g : Geom), n.info.geom = some g →
      (n.setPos 0 0).info.geom = some { g with x := 0, y := 0 }) ∧
    (∀ (doc : Document) (set : SceneNode) (tid productName : String),
      tid ≠ "" → BadTargetRef doc tid →
      placeComponentSetInTarget doc set (some tid) productName =
        .origin (set.setPos 0 0) ["Target frame not found, placing at origin"]) ∧
    (createComponentSetHandler docOneVector missingTargetConfig).notifications =
      ["Target frame not found, placing at origin", "Component set created!"] ∧
    (∃ cs pr,
      (createComponentSetHandler docOneVector missingTargetConfig).componentSet = some cs ∧
      (createComponentSetHandler docOneVector missingTargetConfig).placement = some pr ∧
      pr = .origin (cs.setPos 0 0) ["Target frame not found, placing at origin"]) := by
  refine ⟨fun doc set productName => rfl, ?_, ?_,
    by with_unfolding_all decide, ⟨_, _, by with_unfolding_all rfl,
      by with_unfolding_all rfl, by with_unfolding_all rfl⟩⟩
  · intro n g hg
    unfold SceneNode.setPos
    rw [hg]
    rfl
  · intro doc set tid productName htid hbad
    unfold placeComponentSetInTarget
    dsimp only
    rw [if_neg htid]
    unfold BadTargetRef at hbad
    cases hcase : doc.getNodeById tid with
    | none => rfl
    | some n =>
      rw [hcase] at hbad
      dsimp only at hbad ⊢
      rw [if_neg hbad]

/-- Witness for C8 at a concrete missing target id. -/
theorem placement_fallback_origin_witness :
    ("tgt" ≠ "" ∧ BadTargetRef docOneVector "tgt") ∧
    placeComponentSetInTarget docOneVector (namedSet "X" 1) none "X" =
      .origin ((namedSet "X" 1).setPos 0 0) [] ∧
    placeComponentSetInTarget docOneVector (namedSet "X" 1) (some "tgt") "X" =
      .origin ((namedSet "X" 1).setPos 0 0) ["Target frame not found, placing at origin"] :=
  ⟨⟨by decide, trivial⟩,
    placement_fallback_origin.1 docOneVector (namedSet "X" 1) "X",
    placement_fallback_origin.2.2.1 docOneVector (namedSet "X" 1) "tgt" "X"
      (by decide) trivial⟩

/-- C5 counterexample: a whitespace-only product name is not rejected by the
ui.tsx handler; the build proceeds under the default name and the only
notice is the success message. -/
theorem blank_name_not_rejected_counterexample :
    sTrim blankNameConfig.productName = "" ∧
    (createComponentSetHandler docOneVector blankNameConfig).notifications =
      ["Component set created!"] ∧
    ∃ cs, (createComponentSetHandler docOneVector blankNameConfig).componentSet = some cs ∧
      cs.info.name = "Logo component set" :=
  ⟨by decide, by with_unfolding_all decide,
    ⟨_, by with_unfolding_all rfl, by with_unfolding_all rfl⟩⟩

/-- C5 (amended).  For a blank product name the two revisions disagree: the
earlier main.ts handler reports "Please enter a product name" and builds
nothing, while the ui.tsx handler substitutes the default name
"Logo component set" and proceeds with the build. -/
theorem blank_name_policy (doc : Document) (config : LogoConfig)
    (h : sTrim config.productName = "") :
    MainRev.createComponentSetHandler doc config =
      { notifications := ["Please enter a product name"],
        builtVariants := [], componentSet := none, placement := none } ∧
    createComponentSetHandler doc config =
      createComponentSetHandler doc { config with productName := "Logo component set" } := by
  constructor
  · unfold MainRev.createComponentSetHandler
    rw [if_pos h]
  · have h2 : defaultedConfig config =
        { config with productName := "Logo component set" } := by
      unfold defaultedConfig
      rw [if_pos h]
    have h3 : defaultedConfig { config with productName := "Logo component set" } =
        { config with productName := "Logo component set" } := by
      have h4 : sTrim ({ config with productName := "Logo component set" } :
          LogoConfig).productName ≠ "" := by
        show sTrim "Logo component set" ≠ ""
        decide
      unfold defaultedConfig
      rw [if_neg h4]
    unfold createComponentSetHandler
    rw [h2, h3]

/-- Witness for C5 (amended) at the concrete blank-name configuration. -/
theorem blank_name_policy_witness :
    sTrim blankNameConfig.productName = "" ∧
    (MainRev.createComponentSetHandler docOneVector blankNameConfig =
      { notifications := ["Please enter a product name"],
        builtVariants := [], componentSet := none, placement := none } ∧
    createComponentSetHandler docOneVector blankNameConfig =
      createComponentSetHandler docOneVector
        { blankNameConfig with productName := "Logo component set" }) :=
  ⟨by decide, blank_name_policy docOneVector blankNameConfig (by decide)⟩

/-- C4 counterexample: the source reference of the light slot resolves to no
node and validation passes, yet the single failure notice is not the
source-not-found condition - the background build throws "Invalid hex
color" first, so the claimed condition is never raised. -/
theorem source_missing_aborts_counterexample :
    SourceFails docOneVector
      (resolveSelectionId badColorMissingLightConfig.lightVariantSource
        badColorMissingLightConfig) ∧
    hasAnySelection badColorMissingLightConfig = true ∧
    ((requiredSourceIds badColorMissingLightConfig).any fun id => ! truthyOptStr id) = false ∧
    (createComponentSetHandler docOneVector badColorMissingLightConfig).notifications =
      ["Error: Invalid hex color"] ∧
    (createComponentSetHandler docOneVector badColorMissingLightConfig).componentSet = none :=
  ⟨Or.inl rfl, by decide, by decide, by with_unfolding_all decide,
    by with_unfolding_all rfl⟩

/-- Shared abort lemma: when validation passes, the builds before index k
succeed, and the source reference of the variant at index k fails to
resolve to a clonable node, the handler stops there with exactly the
source-not-found failure notice, keeping the k variants already built and
producing no component set and no placement. -/
theorem handler_stops_at_missing_source (doc : Document) (config : LogoConfig) (k : Nat)
    (hsel : hasAnySelection config = true)
    (hids : ((requiredSourceIds config).any fun id => ! truthyOptStr id) = false)
    (hk : k < (buildPlan (defaultedConfig config)).length)
    (hok : ∀ j, j < k →
      ∃ v, createVariant doc ((buildPlan (defaultedConfig config)).getD j default) = .ok v)
    (hfail : SourceFails doc
      ((buildPlan (defaultedConfig config)).getD k default).sourceId) :
    (createComponentSetHandler doc config).notifications =
      ["Error: Source node not found or cannot be cloned"] ∧
    (createComponentSetHandler doc config).componentSet = none ∧
    (createComponentSetHandler doc config).placement = none ∧
    (createComponentSetHandler doc config).builtVariants.length = k ∧
    ∀ j, j < k →
      createVariant doc ((buildPlan (defaultedConfig config)).getD j default) =
        .ok ((createComponentSetHandler doc config).builtVariants.getD j default) := by
  have herr := createVariant_sourceFails doc _ hfail
  obtain ⟨built, hbl, hlen, hidx⟩ := buildLoop_fails doc _ k hk hok herr
  rw [createComponentSetHandler_build doc config hsel hids, hbl]
  exact ⟨rfl, rfl, rfl, hlen, hidx⟩

/-- C4 (amended).  When validation passes, the variant builds preceding the
failing variant succeed, and the variant at position k has a source
reference that does not resolve to a clonable node, the action stops at
that variant with exactly the source-not-found failure notice: the k
variants built before the failure remain, nothing is ever combined into a
component set, and no placement happens. -/
theorem source_missing_aborts_build (doc : Document) (config : LogoConfig) (k : Nat)
    (hsel : hasAnySelection config = true)
    (hids : ((requiredSourceIds config).any fun id => ! truthyOptStr id) = false)
    (hk : k < (buildPlan (defaultedConfig config)).length)
    (hok : ∀ j, j < k →
      ∃ v, createVariant doc ((buildPlan (defaultedConfig config)).getD j default) = .ok v)
    (hfail : SourceFails doc
      ((buildPlan (defaultedConfig config)).getD k default).sourceId) :
    (createComponentSetHandler doc config).notifications =
      ["Error: Source node not found or cannot be cloned"] ∧
    (createComponentSetHandler doc config).componentSet = none ∧
    (createComponentSetHandler doc config).placement = none ∧
    (createComponentSetHandler doc config).builtVariants.length = k ∧
    ∀ j, j < k →
      createVariant doc ((buildPlan (defaultedConfig config)).getD j default) =
        .ok ((createComponentSetHandler doc config).builtVariants.getD j default) :=
  handler_stops_at_missing_source doc config k hsel hids hk hok hfail

/-- Witness for C4 (amended): the light slot reads a missing node while the
background variant builds fine, so exactly one variant is left orphaned. -/
theorem source_missing_aborts_build_witness :
    hasAnySelection missingLightConfig = true ∧
    ((requiredSourceIds missingLightConfig).any fun id => ! truthyOptStr id) = false ∧
    1 < (buildPlan (defaultedConfig missingLightConfig)).length ∧
    (∀ j, j < 1 →
      ∃ v, createVariant docOneVector
        ((buildPlan (defaultedConfig missingLightConfig)).getD j default) = .ok v) ∧
    SourceFails docOneVector
      ((buildPlan (defaultedConfig missingLightConfig)).getD 1 default).sourceId ∧
    ((createComponentSetHandler docOneVector missingLightConfig).notifications =
      ["Error: Source node not found or cannot be cloned"] ∧
    (createComponentSetHandler docOneVector missingLightConfig).componentSet = none ∧
    (createComponentSetHandler docOneVector missingLightConfig).placement = none ∧
    (createComponentSetHandler docOneVector missingLightConfig).builtVariants.length = 1 ∧
    ∀ j, j < 1 →
      createVariant docOneVector
        ((buildPlan (defaultedConfig missingLightConfig)).getD j default) =
        .ok ((createComponentSetHandler docOneVector missingLightConfig).builtVariants.getD
          j default)) :=
  ⟨by decide, by decide, by decide,
    fun j hj => ⟨_, by
      have hj0 : j = 0 := by omega
      subst hj0
      with_unfolding_all rfl⟩,
    Or.inl rfl,
    source_missing_aborts_build docOneVector missingLightConfig 1
      (by decide) (by decide) (by decide)
      (fun j hj => ⟨_, by
        have hj0 : j = 0 := by omega
        subst hj0
        with_unfolding_all rfl⟩)
      (Or.inl rfl)⟩

/-- C10 counterexample: with the favicon background off and the favicon
slot unset, the action does not universally pass validation - with no
captured selection at all it is rejected up front and builds nothing. -/
theorem favicon_gap_counterexample :
    noSelectionsConfig.faviconHasBackground = false ∧
    resolveSelectionId noSelectionsConfig.faviconVariantSource noSelectionsConfig = none ∧
    (createComponentSetHandler docOneVector noSelectionsConfig).notifications =
      ["Please select at least one element"] ∧
    (createComponentSetHandler docOneVector noSelectionsConfig).builtVariants.length = 0 ∧
    (createComponentSetHandler docOneVector noSelectionsConfig).componentSet = none :=
  ⟨rfl, rfl, by decide, by decide, rfl⟩

/-- C10 (amended).  With the favicon background off, its slot unset, the
other three slots resolving to clonable nodes and a consumable background
color, pre-build validation does not require the favicon source and passes,
three variants are built, and the favicon build branch still tries to
resolve its source and fails mid-build with the error notice, leaving the
three variants orphaned and no component set produced. -/
theorem favicon_validation_gap (doc : Document) (config : LogoConfig)
    (hfavbg : config.faviconHasBackground = false)
    (hfavsrc : resolveSelectionId config.faviconVariantSource config = none)
    (hbg : SourceResolves doc (resolveSelectionId config.bgVariantSource config))
    (hlight : SourceResolves doc (resolveSelectionId config.lightVariantSource config))
    (hdark : SourceResolves doc (resolveSelectionId config.darkVariantSource config))
    (hhex : HexOk (some config.backgroundColor)) :
    (createComponentSetHandler doc config).notifications =
      ["Error: Source node not found or cannot be cloned"] ∧
    (createComponentSetHandler doc config).builtVariants.length = 3 ∧
    (createComponentSetHandler doc config).componentSet = none ∧
    (createComponentSetHandler doc config).placement = none := by
  obtain ⟨h1, h2, h3, h4, h5, h6, h7, -⟩ := defaultedConfig_fields config
  have hsel := hasAnySelection_of_resolves doc config _ hbg
  have t1 := truthyOptStr_of_resolves doc _ hbg
  have t2 := truthyOptStr_of_resolves doc _ hlight
  have t3 := truthyOptStr_of_resolves doc _ hdark
  have hids : ((requiredSourceIds config).any fun id => ! truthyOptStr id) = false := by
    simp [requiredSourceIds, hfavbg, t1, t2, t3]
  have hok : ∀ j, j < 3 →
      ∃ v, createVariant doc ((buildPlan (defaultedConfig config)).getD j default) = .ok v := by
    intro j hj
    interval_cases j
    · obtain ⟨v, hv, -, -, -, -⟩ := createVariant_ok doc
        (bgVariantOptions (defaultedConfig config))
        (by
          show SourceResolves doc (bgVariantOptions (defaultedConfig config)).sourceId
          simp only [bgVariantOptions, h1, resolveSelectionId_defaultedConfig]
          exact hbg)
        (by
          show HexOk (bgVariantOptions (defaultedConfig config)).backgroundColor
          simp only [bgVariantOptions, h7]
          exact hhex)
      exact ⟨v, by simpa [buildPlan] using hv⟩
    · obtain ⟨v, hv, -, -, -, -⟩ := createVariant_ok doc
        (lightVariantOptions (defaultedConfig config))
        (by
          show SourceResolves doc (lightVariantOptions (defaultedConfig config)).sourceId
          simp only [lightVariantOptions, h2, resolveSelectionId_defaultedConfig]
          exact hlight)
        trivial
      exact ⟨v, by simpa [buildPlan] using hv⟩
    · obtain ⟨v, hv, -, -, -, -⟩ := createVariant_ok doc
        (darkVariantOptions (defaultedConfig config))
        (by
          show SourceResolves doc (darkVariantOptions (defaultedConfig config)).sourceId
          simp only [darkVariantOptions, h3, resolveSelectionId_defaultedConfig]
          exact hdark)
        trivial
      exact ⟨v, by simpa [buildPlan] using hv⟩
  have hfav2 : ((buildPlan (defaultedConfig config)).getD 3 default).sourceId = none := by
    simp only [buildPlan, List.getD_cons_succ, List.getD_cons_zero, h5, hfavbg,
      Bool.false_eq_true, if_false, faviconVariantOptionsNoBg, h4,
      resolveSelectionId_defaultedConfig, hfavsrc]
  obtain ⟨c1, c2, c3, c4, -⟩ := handler_stops_at_missing_source doc config 3 hsel hids
    (by show 3 < (buildPlan (defaultedConfig config)).length; simp [buildPlan])
    hok (Or.inl (by rw [hfav2]; rfl))
  exact ⟨c1, c4, c2, c3⟩

/-- Witness for C10 (amended) at the concrete favicon-gap configuration. -/
theorem favicon_validation_gap_witness :
    faviconGapConfig.faviconHasBackground = false ∧
    resolveSelectionId faviconGapConfig.faviconVariantSource faviconGapConfig = none ∧
    SourceResolves docOneVector
      (resolveSelectionId faviconGapConfig.bgVariantSource faviconGapConfig) ∧
    HexOk (some faviconGapConfig.backgroundColor) ∧
    ((createComponentSetHandler docOneVector faviconGapConfig).notifications =
      ["Error: Source node not found or cannot be cloned"] ∧
    (createComponentSetHandler docOneVector faviconGapConfig).builtVariants.length = 3 ∧
    (createComponentSetHandler docOneVector faviconGapConfig).componentSet = none ∧
    (createComponentSetHandler docOneVector faviconGapConfig).placement = none) :=
  ⟨rfl, rfl, ⟨"vec", witnessVector, rfl, by decide, rfl, rfl⟩,
    Or.inr (by decide),
    favicon_validation_gap docOneVector faviconGapConfig rfl rfl
      ⟨"vec", witnessVector, rfl, by decide, rfl, rfl⟩
      ⟨"vec", witnessVector, rfl, by decide, rfl, rfl⟩
      ⟨"vec", witnessVector, rfl, by decide, rfl, rfl⟩
      (Or.inr (by decide))⟩

/-- C1 counterexample: a non-blank name and four resolving clonable sources
do not suffice - an unparsable background color makes the action abort with
the invalid-color notice and no component set is produced. -/
theorem create_component_set_invalid_color_counterexample :
    sTrim invalidColorConfig.productName ≠ "" ∧
    SourceResolves docOneVector
      (resolveSelectionId invalidColorConfig.bgVariantSource invalidColorConfig) ∧
    SourceResolves docOneVector
      (resolveSelectionId invalidColorConfig.lightVariantSource invalidColorConfig) ∧
    SourceResolves docOneVector
      (resolveSelectionId invalidColorConfig.darkVariantSource invalidColorConfig) ∧
    SourceResolves docOneVector
      (resolveSelectionId invalidColorConfig.faviconVariantSource invalidColorConfig) ∧
    (createComponentSetHandler docOneVector invalidColorConfig).componentSet = none ∧
    (createComponentSetHandler docOneVector invalidColorConfig).notifications =
      ["Error: Invalid hex color"] :=
  ⟨by decide,
    ⟨"vec", witnessVector, rfl, by decide, rfl, rfl⟩,
    ⟨"vec", witnessVector, rfl, by decide, rfl, rfl⟩,
    ⟨"vec", witnessVector, rfl, by decide, rfl, rfl⟩,
    ⟨"vec", witnessVector, rfl, by decide, rfl, rfl⟩,
    by with_unfolding_all rfl, by with_unfolding_all decide⟩

/-- C1 (amended).  For every config with a non-blank product name, all four
variant sources resolving to clonable nodes, and a consumable background
color, the handler produces exactly one component set, named after the
product, whose children are exactly the four variants built with sizes
315x140, 300x100, 300x100 and 100x100 and paddings 8, 0, 0 and 20. -/
theorem create_component_set_builds_four_variants (doc : Document) (config : LogoConfig)
    (hname : sTrim config.productName ≠ "")
    (hhex : HexOk (some config.backgroundColor))
    (hbg : SourceResolves doc (resolveSelectionId config.bgVariantSource config))
    (hlight : SourceResolves doc (resolveSelectionId config.lightVariantSource config))
    (hdark : SourceResolves doc (resolveSelectionId config.darkVariantSource config))
    (hfav : SourceResolves doc (resolveSelectionId config.faviconVariantSource config)) :
    ∃ cs v1 v2 v3 v4,
      (createComponentSetHandler doc config).componentSet = some cs ∧
      cs.info.ntype = NodeType.componentSet ∧
      cs.info.name = config.productName ∧
      cs.children = [v1, v2, v3, v4] ∧
      (∀ v ∈ cs.children, v.info.ntype = NodeType.component) ∧
      createVariant doc (bgVariantOptions config) = .ok v1 ∧
      createVariant doc (lightVariantOptions config) = .ok v2 ∧
      createVariant doc (darkVariantOptions config) = .ok v3 ∧
      createVariant doc (if config.faviconHasBackground then faviconVariantOptionsWithBg config
        else faviconVariantOptionsNoBg config) = .ok v4 ∧
      (cs.children.map fun v => (nodeWidth v, nodeHeight v)) =
        [(315, 140), (300, 100), (300, 100), (100, 100)] ∧
      (bgVariantOptions config).padding = some 8 ∧
      (lightVariantOptions config).padding = some 0 ∧
      (darkVariantOptions config).padding = some 0 ∧
      (faviconVariantOptionsWithBg config).padding = some 20 ∧
      (faviconVariantOptionsNoBg config).padding = some 20 := by
  have hdc : defaultedConfig config = config := defaultedConfig_of_nonblank config hname
  have hsel := hasAnySelection_of_resolves doc config _ hbg
  have t1 := truthyOptStr_of_resolves doc _ hbg
  have t2 := truthyOptStr_of_resolves doc _ hlight
  have t3 := truthyOptStr_of_resolves doc _ hdark
  have t4 := truthyOptStr_of_resolves doc _ hfav
  have hids : ((requiredSourceIds config).any fun id => ! truthyOptStr id) = false := by
    by_cases hf : config.faviconHasBackground = false <;>
      simp [requiredSourceIds, hf, t1, t2, t3, t4]
  have hok : ∀ o ∈ buildPlan config, ∃ v, createVariant doc o = .ok v := by
    intro o ho
    simp only [buildPlan, List.mem_cons, List.not_mem_nil, or_false] at ho
    rcases ho with h | h | h | h
    · subst h
      obtain ⟨v, hv, -⟩ := createVariant_ok doc (bgVariantOptions config) hbg hhex
      exact ⟨v, hv⟩
    · subst h
      obtain ⟨v, hv, -⟩ := createVariant_ok doc (lightVariantOptions config) hlight trivial
      exact ⟨v, hv⟩
    · subst h
      obtain ⟨v, hv, -⟩ := createVariant_ok doc (darkVariantOptions config) hdark trivial
      exact ⟨v, hv⟩
    · subst h
      by_cases hfb : config.faviconHasBackground = true
      · simp only [hfb, if_true]
        obtain ⟨v, hv, -⟩ := createVariant_ok doc (faviconVariantOptionsWithBg config) hfav hhex
        exact ⟨v, hv⟩
      · simp only [hfb, if_false]
        obtain ⟨v, hv, -⟩ := createVariant_ok doc (faviconVariantOptionsNoBg config) hfav trivial
        exact ⟨v, hv⟩
  obtain ⟨vs, hbl, hf⟩ := buildLoop_ok doc (buildPlan config) hok
  rw [buildPlan] at hf
  rcases hf with - | ⟨e1, hf⟩
  rcases hf with - | ⟨e2, hf⟩
  rcases hf with - | ⟨e3, hf⟩
  rcases hf with - | @⟨_, v4, _, _, e4, hf⟩
  rcases hf
  rw [createComponentSetHandler_build doc config hsel hids, hdc, hbl]
  obtain ⟨w1, hw1, nt1, nm1, ww1, hh1⟩ :=
    createVariant_ok doc (bgVariantOptions config) hbg hhex
  rw [hw1] at e1
  obtain rfl := Except.ok.inj e1
  obtain ⟨w2, hw2, nt2, nm2, ww2, hh2⟩ :=
    createVariant_ok doc (lightVariantOptions config) hlight trivial
  rw [hw2] at e2
  obtain rfl := Except.ok.inj e2
  obtain ⟨w3, hw3, nt3, nm3, ww3, hh3⟩ :=
    createVariant_ok doc (darkVariantOptions config) hdark trivial
  rw [hw3] at e3
  obtain rfl := Except.ok.inj e3
  have h4props : v4.info.ntype = NodeType.component ∧
      nodeWidth v4 = 100 ∧ nodeHeight v4 = 100 := by
    by_cases hfb : config.faviconHasBackground = true
    · simp only [hfb, if_true, eq_self_iff_true] at e4
      obtain ⟨w4, hw4, nt4, -, ww4, hh4⟩ :=
        createVariant_ok doc (faviconVariantOptionsWithBg config) hfav hhex
      rw [hw4] at e4
      obtain rfl := Except.ok.inj e4
      exact ⟨nt4, ww4, hh4⟩
    · have hfb2 : config.faviconHasBackground = false := by
        revert hfb
        cases config.faviconHasBackground <;> simp
      simp only [hfb2, Bool.false_eq_true, if_false] at e4
      obtain ⟨w4, hw4, nt4, -, ww4, hh4⟩ :=
        createVariant_ok doc (faviconVariantOptionsNoBg config) hfav trivial
      rw [hw4] at e4
      obtain rfl := Except.ok.inj e4
      exact ⟨nt4, ww4, hh4⟩
  refine ⟨assembleComponentSet [w1, w2, w3, v4] config.productName, w1, w2, w3, v4,
    rfl, rfl, ?_, ?_, ?_, hw1, hw2, hw3, e4, ?_, rfl, rfl, rfl, rfl, rfl⟩
  · simp [assembleComponentSet, combineAsVariants, SceneNode.setName,
      SceneNode.setCornerRadius, SceneNode.modifyInfo]
  · simp [assembleComponentSet, combineAsVariants, SceneNode.setName,
      SceneNode.setCornerRadius, SceneNode.modifyInfo]
  · intro v hv
    simp only [assembleComponentSet, combineAsVariants, SceneNode.setName,
      SceneNode.setCornerRadius, SceneNode.modifyInfo, SceneNode.children_mk,
      List.mem_cons, List.not_mem_nil, or_false] at hv
    rcases hv with rfl | rfl | rfl | rfl
    · exact nt1
    · exact nt2
    · exact nt3
    · exact h4props.1
  · simp [assembleComponentSet, combineAsVariants, SceneNode.setName,
      SceneNode.setCornerRadius, SceneNode.modifyInfo, ww1, hh1, ww2, hh2,
      ww3, hh3, h4props.2.1, h4props.2.2, bgVariantOptions, lightVariantOptions,
      darkVariantOptions]
/-- Witness for C1 (amended) at the concrete "Acme" build. -/
theorem create_component_set_builds_four_variants_witness :
    sTrim acmeConfig.productName ≠ "" ∧
    HexOk (some acmeConfig.backgroundColor) ∧
    SourceResolves docOneVector (resolveSelectionId acmeConfig.bgVariantSource acmeConfig) ∧
    (∃ cs v1 v2 v3 v4,
      (createComponentSetHandler docOneVector acmeConfig).componentSet = some cs ∧
      cs.info.ntype = NodeType.componentSet ∧
      cs.info.name = acmeConfig.productName ∧
      cs.children = [v1, v2, v3, v4] ∧
      (∀ v ∈ cs.children, v.info.ntype = NodeType.component) ∧
      createVariant docOneVector (bgVariantOptions acmeConfig) = .ok v1 ∧
      createVariant docOneVector (lightVariantOptions acmeConfig) = .ok v2 ∧
      createVariant docOneVector (darkVariantOptions acmeConfig) = .ok v3 ∧
      createVariant docOneVector (if acmeConfig.faviconHasBackground
        then faviconVariantOptionsWithBg acmeConfig
        else faviconVariantOptionsNoBg acmeConfig) = .ok v4 ∧
      (cs.children.map fun v => (nodeWidth v, nodeHeight v)) =
        [(315, 140), (300, 100), (300, 100), (100, 100)] ∧
      (bgVariantOptions acmeConfig).padding = some 8 ∧
      (lightVariantOptions acmeConfig).padding = some 0 ∧
      (darkVariantOptions acmeConfig).padding = some 0 ∧
      (faviconVariantOptionsWithBg acmeConfig).padding = some 20 ∧
      (faviconVariantOptionsNoBg acmeConfig).padding = some 20) :=
  ⟨by decide, Or.inr (by decide),
    ⟨"vec", witnessVector, rfl, by decide, rfl, rfl⟩,
    create_component_set_builds_four_variants docOneVector acmeConfig (by decide)
      (Or.inr (by decide))
      ⟨"vec", witnessVector, rfl, by decide, rfl, rfl⟩
      ⟨"vec", witnessVector, rfl, by decide, rfl, rfl⟩
      ⟨"vec", witnessVector, rfl, by decide, rfl, rfl⟩
      ⟨"vec", witnessVector, rfl, by decide, rfl, rfl⟩⟩

/-- C7.  For a text variant, the final font size applied to the text node is
floor(200 * scale), where scale is the contain scale of the padded box
against the text dimensions measured at the initial font size 200. -/
theorem textVariant_font_size_formula (metrics : TextMetrics) (options : TextVariantOptions)
    (hhex : HexOk options.backgroundColor) :
    ∃ comp,
      createTextVariant metrics options = .ok comp ∧
      (comp.children.getLast?.map fun t => (t.info.name, t.info.fontSize)) =
        some ("Logo Text", some
          (((⌊(200 : ℚ) * min ((options.width - options.padding * 2) / (metrics 200).1)
              ((options.height - options.padding * 2) / (metrics 200).2)⌋ : ℤ) : ℚ))) := by
  unfold createTextVariant
  dsimp only
  cases ht : truthyOptStr options.backgroundColor with
  | false =>
    simp only [ht, Bool.false_eq_true, if_false]
    refine ⟨_, rfl, ?_⟩
    simp [figmaCreateComponent, figmaCreateText, SceneNode.resize, SceneNode.setName,
        SceneNode.setCornerRadius, SceneNode.setFills, SceneNode.setConstraints,
        SceneNode.setConstrainProportions, SceneNode.modifyInfo, SceneNode.appendChild,
        SceneNode.setPos, setFontSizeWithMetrics, setScaleConstraintsRecursive,
        setScaleConstraintsRecursiveList, removeHiddenFills, removeHiddenFillsList,
        nodeWidth, nodeHeight, freshGeom]
  | true =>
    cases hbc : options.backgroundColor with
    | none =>
      rw [hbc] at ht
      simp [truthyOptStr] at ht
    | some str =>
      rw [hbc] at ht hhex
      have hsne : str ≠ "" := by simpa [truthyOptStr] using ht
      unfold HexOk at hhex
      rcases hhex with h0 | hsome
      · exact absurd h0 hsne
      · obtain ⟨c, hc⟩ := Option.isSome_iff_exists.mp hsome
        simp only [eq_self_iff_true, if_true, Option.getD_some]
        unfold makeBackgroundRect hexToRgb
        rw [hc]
        dsimp only
        refine ⟨_, rfl, ?_⟩
        simp [figmaCreateComponent, figmaCreateText, figmaCreateRectangle,
            SceneNode.resize, SceneNode.setName, SceneNode.setCornerRadius,
            SceneNode.setFills, SceneNode.setConstraints,
            SceneNode.setConstrainProportions, SceneNode.modifyInfo,
            SceneNode.appendChild, SceneNode.setPos, setFontSizeWithMetrics,
            setScaleConstraintsRecursive, setScaleConstraintsRecursiveList,
            removeHiddenFills, removeHiddenFillsList, nodeWidth, nodeHeight, freshGeom]

/-- Witness for C7 at concrete metrics (a 40 by 20 box at font size 200). -/
theorem textVariant_font_size_formula_witness :
    HexOk textVariantOptionsWitness.backgroundColor ∧
    (∃ comp,
      createTextVariant textMetricsWitness textVariantOptionsWitness = .ok comp ∧
      (comp.children.getLast?.map fun t => (t.info.name, t.info.fontSize)) =
        some ("Logo Text", some
          (((⌊(200 : ℚ) * min ((textVariantOptionsWitness.width -
                textVariantOptionsWitness.padding * 2) / (textMetricsWitness 200).1)
              ((textVariantOptionsWitness.height -
                textVariantOptionsWitness.padding * 2) / (textMetricsWitness 200).2)⌋ :
            ℤ) : ℚ)))) :=
  ⟨trivial, textVariant_font_size_formula textMetricsWitness textVariantOptionsWitness trivial⟩

end NiLogo
